import Mathlib

/-!
Verification development for the OpenDeck `Buttons` engine
(`src/unnamed/part_000`: `buttons.cpp` plus the `io::buttons` common header).

The C++ code is shallowly embedded: the mutable members of the `Buttons`
class become a `ButtonsState` record, the external configuration store
becomes a `Database` record of read functions, the publish calls on the
event bus (`MidiDispatcher.notify`) become elements of a returned event
list, and machine-integer casts become explicit `% 2^w` operations.
Build-time constants (`Collection::SIZE(GROUP_DIGITAL_INPUTS)`,
`SAX_FINGERING_TABLE_ENTRIES`) become fields of a `Config` record.

Members whose declarations live in headers outside the provided sources
(`buttons.h`, `core/util/util.h`, `midi_program.h`, `bpm.h`,
`conversion.h`) are modelled from the specification; each such definition
carries a doc comment starting with `Modelled from the spec:`.
-/

namespace OpenDeck

/-- Outbound MIDI wire message kinds (`protocol::midi::messageType_t`),
restricted to the constructors the buttons engine produces or forwards. -/
inductive midiMessage_t where
  | NOTE_ON
  | NOTE_OFF
  | CONTROL_CHANGE
  | PROGRAM_CHANGE
  | SYS_EX
  | MMC_STOP
  | MMC_PLAY
  | MMC_RECORD
  | MMC_RECORD_STOP
  | MMC_PAUSE
  | OTHER
  deriving DecidableEq, Repr

/-- Event-bus event kinds (`messaging::eventType_t`), restricted to the
kinds the buttons engine publishes. -/
inductive eventType_t where
  | BUTTON
  | SYSTEM
  deriving DecidableEq, Repr

/-- System-level messages carried inside an event
(`messaging::systemMessage_t`), restricted to what the engine touches. -/
inductive systemMessage_t where
  | NO_MESSAGE
  | PRESET_CHANGE_DIRECT_REQ
  deriving DecidableEq, Repr

/-- Button types (`io::buttons::type_t`). -/
inductive type_t where
  | MOMENTARY
  | LATCHING
  deriving DecidableEq, Repr

/-- Button message types (`io::buttons::messageType_t`), from the header
in the provided sources. -/
inductive messageType_t where
  | NOTE
  | PROGRAM_CHANGE
  | CONTROL_CHANGE
  | CONTROL_CHANGE_RESET
  | MMC_STOP
  | MMC_PLAY
  | MMC_RECORD
  | MMC_PAUSE
  | REAL_TIME_CLOCK
  | REAL_TIME_START
  | REAL_TIME_CONTINUE
  | REAL_TIME_STOP
  | REAL_TIME_ACTIVE_SENSING
  | REAL_TIME_SYSTEM_RESET
  | PROGRAM_CHANGE_INC
  | PROGRAM_CHANGE_DEC
  | NONE
  | PRESET_CHANGE
  | MULTI_VAL_INC_RESET_NOTE
  | MULTI_VAL_INC_DEC_NOTE
  | MULTI_VAL_INC_RESET_CC
  | MULTI_VAL_INC_DEC_CC
  | NOTE_OFF_ONLY
  | CONTROL_CHANGE0_ONLY
  | BANK_SELECT_PROGRAM_CHANGE
  | CUSTOM_SYS_EX
  | PROGRAM_CHANGE_OFFSET_INC
  | PROGRAM_CHANGE_OFFSET_DEC
  | BPM_INC
  | BPM_DEC
  | MMC_PLAY_STOP
  | NOTE_LEGATO
  deriving DecidableEq, Repr

/-- `messaging::Event`: the record published on the event bus.  A SysEx
payload is carried as a byte list together with its explicit length. -/
structure Event where
  componentIndex : Nat := 0
  channel : Nat := 0
  index : Nat := 0
  value : Nat := 0
  message : midiMessage_t := midiMessage_t.OTHER
  sysEx : List Nat := []
  sysExLength : Nat := 0
  systemMessage : systemMessage_t := systemMessage_t.NO_MESSAGE
  deriving DecidableEq, Repr

/-- `io::buttons::Descriptor`: one input's resolved configuration. -/
structure Descriptor where
  type : type_t
  messageType : messageType_t
  event : Event
  deriving DecidableEq, Repr

/-- One publication on the event bus: `MidiDispatcher.notify(ty, event)`. -/
abbrev BusEvent := eventType_t × Event

/-- Status codes of the configuration protocol (`sys::Config::Status`). -/
inductive configStatus where
  | ACK
  | ERROR_READ
  | ERROR_WRITE
  deriving DecidableEq, Repr

/-- Configuration-protocol sections for buttons
(`sys::Config::Section::button_t`). -/
inductive buttonSection where
  | TYPE
  | MESSAGE_TYPE
  | MIDI_ID
  | VALUE
  | CHANNEL
  | SYSEX_LENGTH
  deriving DecidableEq, Repr

/-- Modelled from the spec: `core::util::BIT_READ` (the `core/util/util.h`
header is not among the provided sources; section 4.1 describes the state
store as plain bit read/write with no side effects). -/
def BIT_READ (value bit : Nat) : Bool :=
  value.testBit bit

/-- Modelled from the spec: `core::util::BIT_WRITE` stores boolean `b`
into bit `bit` of `value` (section 4.1 of the spec; the header is not
among the provided sources).  Written as conditional xor, which agrees
with the usual set/clear mask formulation bit for bit. -/
def BIT_WRITE (value bit : Nat) (b : Bool) : Nat :=
  if value.testBit bit = b then value else value ^^^ (1 <<< bit)

/-- Modelled from the spec: the mutable members of the `Buttons` class
(the `buttons.h` class declaration is not among the provided sources;
field names follow the member uses in `buttons.cpp` and section 3 of the
spec).  Bit-packed arrays are byte maps, counters are naturals. -/
structure ButtonsState where
  buttonPressed : Nat → Nat
  lastLatchingState : Nat → Nat
  legatoButtonCount : Nat → Nat
  legatoActiveNote : Nat → Nat
  incDecValue : Nat → Nat
  midiProgramOffset : Nat
  midiProgram : Nat → Nat
  bpm : Nat
  saxNoteOn : Bool
  saxActiveNote : Nat

/-- `Buttons::setState`: write the pressed bit for `index` into the
bit-packed array (`buttons.cpp` lines 1076-1082). -/
def ButtonsState.setState (st : ButtonsState) (index : Nat) (b : Bool) : ButtonsState :=
  let arrayIndex := index / 8
  let bit := index - 8 * arrayIndex
  { st with buttonPressed := fun a =>
      if a = arrayIndex then BIT_WRITE (st.buttonPressed arrayIndex) bit b
      else st.buttonPressed a }

/-- `Buttons::state`: read the pressed bit for `index`
(`buttons.cpp` lines 1087-1093). -/
def ButtonsState.state (st : ButtonsState) (index : Nat) : Bool :=
  let arrayIndex := index / 8
  let bit := index - 8 * arrayIndex
  BIT_READ (st.buttonPressed arrayIndex) bit

/-- `Buttons::setLatchingState` (`buttons.cpp` lines 1104-1110). -/
def ButtonsState.setLatchingState (st : ButtonsState) (index : Nat) (b : Bool) : ButtonsState :=
  let arrayIndex := index / 8
  let bit := index - 8 * arrayIndex
  { st with lastLatchingState := fun a =>
      if a = arrayIndex then BIT_WRITE (st.lastLatchingState arrayIndex) bit b
      else st.lastLatchingState a }

/-- `Buttons::latchingState` (`buttons.cpp` lines 1115-1121). -/
def ButtonsState.latchingState (st : ButtonsState) (index : Nat) : Bool :=
  let arrayIndex := index / 8
  let bit := index - 8 * arrayIndex
  BIT_READ (st.lastLatchingState arrayIndex) bit

/-- `Buttons::reset`: clear both the pressed and the latching bit
(`buttons.cpp` lines 1125-1129). -/
def ButtonsState.reset (st : ButtonsState) (index : Nat) : ButtonsState :=
  (st.setState index false).setLatchingState index false

/-- The external configuration store, as the read functions the buttons
engine uses.  Every field returns the raw (32-bit) stored value; casts to
narrower machine integers are applied at the call sites, mirroring the
C++ `static_cast`s. -/
structure Database where
  sysexLength : Nat → Nat
  sysexData : Nat → Nat → Nat
  saxEnable : Bool
  saxBaseNote : Nat
  saxTransposeRaw : Nat
  saxInvert : Bool
  globalChannelRaw : Nat
  fingeringHiEn : Nat → Nat
  fingeringLo14 : Nat → Nat
  fingeringNote : Nat → Nat
  saxKeyMap : Nat → Nat

/-- Build-time constants of the target.  `digitalCount` is
`Collection::SIZE(GROUP_DIGITAL_INPUTS)`, `fingeringEntries` is
`database::Config::SAX_FINGERING_TABLE_ENTRIES`, and
`saxRegisterChromatic` is the `PROJECT_TARGET_SAX_REGISTER_CHROMATIC`
compile flag.  `bpmMin`/`bpmMax` bound the spec-modelled tempo. -/
structure Config where
  digitalCount : Nat
  fingeringEntries : Nat
  saxRegisterChromatic : Bool
  bpmMin : Nat
  bpmMax : Nat

/-- `database::Config::SAX_FINGERING_KEYS`.  The constant itself is
defined outside the provided sources; the section name
`SAX_FINGERING_MASK_HI10_ENABLE` together with
`HI_BITS = SAX_FINGERING_KEYS - 14` fixes it at `14 + 10 = 24`. -/
def SAX_FINGERING_KEYS : Nat := 24

/-- `HI_BITS = SAX_FINGERING_KEYS - 14` (`buttons.cpp` line 345). -/
def SAX_HI_BITS : Nat := SAX_FINGERING_KEYS - 14

/-- `HI_MASK = (1 << HI_BITS) - 1` (`buttons.cpp` line 346). -/
def SAX_HI_MASK : Nat := (1 <<< SAX_HI_BITS) - 1

/-- `ENABLE_MASK = 1 << HI_BITS` (`buttons.cpp` line 347). -/
def SAX_ENABLE_MASK : Nat := 1 <<< SAX_HI_BITS

/-- Signed interpretation of a `static_cast<int16_t>` applied to an
arbitrary integer: reduce into `[-32768, 32767]` modulo `2^16`. -/
def toInt16 (x : Int) : Int :=
  (x + 32768) % 65536 - 32768

/-- Shared clamp-to-`0..127` applied after the sax note computations
(`buttons.cpp` lines 418-427 and 492-500). -/
def clampNote (x : Int) : Nat :=
  if x < 0 then 0 else if x > 127 then 127 else x.toNat

/-- The `popcount32` lambda inside `Buttons::processSaxRegisterChromatic`
(`buttons.cpp` lines 323-332): count one bits of a 32-bit value.  The
loop is rendered with explicit fuel 32, enough for any 32-bit input. -/
def popcountAux : Nat → Nat → Nat
  | 0, _ => 0
  | fuel + 1, v => if v = 0 then 0 else (v &&& 1) + popcountAux fuel (v >>> 1)

/-- The `popcount32` entry point: its argument is a `uint32_t`. -/
def popcount32 (v : Nat) : Nat :=
  popcountAux 32 (v % 4294967296)

/-- `Buttons::saxChannel` (`buttons.cpp` lines 260-273): the global MIDI
channel, 0-based, falling back to channel 1 when out of `1..16`. -/
def saxChannel (db : Database) : Nat :=
  let raw := db.globalChannelRaw % 256
  if 1 ≤ raw ∧ raw ≤ 16 then raw - 1 else 0

/-- The `saxPressed` lambda (`buttons.cpp` lines 295-299): a key's pressed
state, optionally inverted. -/
def saxPressed (db : Database) (st : ButtonsState) (index : Nat) : Bool :=
  let pressed := st.state index
  if db.saxInvert then !pressed else pressed

/-- `saxKeyCount` (`buttons.cpp` line 293): the smaller of the digital
input count and `SAX_FINGERING_KEYS`. -/
def saxKeyCount (cfg : Config) : Nat :=
  min cfg.digitalCount SAX_FINGERING_KEYS

/-- The highest-pressed-key scan (`buttons.cpp` lines 301-309), written as
a downward recursion: `saxActiveKeyAux n` scans indices `n-1, n-2, …, 0`
and returns the first (largest) pressed one. -/
def saxActiveKeyAux (db : Database) (st : ButtonsState) : Nat → Option Nat
  | 0 => none
  | n + 1 => if saxPressed db st n then some n else saxActiveKeyAux db st n

/-- `activeKey` in `Buttons::processSaxRegisterChromatic`: the highest
pressed digital key, or `none`. -/
def saxActiveKey (cfg : Config) (db : Database) (st : ButtonsState) : Option Nat :=
  saxActiveKeyAux db st cfg.digitalCount

/-- `currentMask` (`buttons.cpp` lines 313-321): bitmask of the pressed
keys among the first `saxKeyCount` digital inputs. -/
def saxCurrentMask (cfg : Config) (db : Database) (st : ButtonsState) : Nat :=
  (List.range (saxKeyCount cfg)).foldl
    (fun m i => if saxPressed db st i then m ||| (1 <<< i) else m) 0

/-- The enable test of a fingering-table entry (`buttons.cpp` lines
342-349): bit `HI_BITS` of the `MASK_HI10_ENABLE` word. -/
def entryEnabled (db : Database) (entry : Nat) : Bool :=
  ((db.fingeringHiEn entry % 65536) &&& SAX_ENABLE_MASK) ≠ 0

/-- A fingering-table entry's required-keys mask (`buttons.cpp` lines
357-374): low 14 bits from `MASK_LO14`, high bits from `MASK_HI10_ENABLE`,
restricted to the active key count.  The two C++ branches (key count below
`SAX_FINGERING_KEYS` or equal to it) both reduce to masking with
`(1 <<< saxKeyCount) - 1`. -/
def entryMask (cfg : Config) (db : Database) (entry : Nat) : Nat :=
  let hiEn := db.fingeringHiEn entry % 65536
  let lo14 := db.fingeringLo14 entry % 65536
  let hi := hiEn &&& SAX_HI_MASK
  (lo14 ||| (hi <<< 14)) &&& ((1 <<< saxKeyCount cfg) - 1)

/-- The scan accumulator of the fingering-table loop (`buttons.cpp` lines
335-338): `anyEnabled`, `hasMatch`, `bestScore`, `bestNote`. -/
structure SaxScan where
  anyEnabled : Bool
  hasMatch : Bool
  bestScore : Nat
  bestNote : Nat
  deriving DecidableEq, Repr

/-- One iteration of the fingering-table loop (`buttons.cpp` lines
340-395): skip disabled entries, record `anyEnabled`, skip entries whose
mask is not a subset of `currentMask`, and accept an entry when it is the
first match or strictly beats the best score — unless its stored note
exceeds 127, in which case it is skipped without updating the best. -/
def saxScanStep (cfg : Config) (db : Database) (currentMask : Nat)
    (acc : SaxScan) (entry : Nat) : SaxScan :=
  if !entryEnabled db entry then acc
  else
    let acc1 := { acc with anyEnabled := true }
    let mask := entryMask cfg db entry
    if mask &&& currentMask ≠ mask then acc1
    else
      let score := popcount32 mask
      if acc1.hasMatch = false ∨ score > acc1.bestScore then
        let noteWide := db.fingeringNote entry % 65536
        if noteWide > 127 then acc1
        else { acc1 with bestScore := score, bestNote := noteWide, hasMatch := true }
      else acc1

/-- The whole fingering-table scan over entries
`0 .. SAX_FINGERING_TABLE_ENTRIES - 1` (`buttons.cpp` lines 340-395). -/
def saxScan (cfg : Config) (db : Database) (currentMask : Nat) : SaxScan :=
  (List.range cfg.fingeringEntries).foldl (saxScanStep cfg db currentMask)
    { anyEnabled := false, hasMatch := false, bestScore := 0, bestNote := 0 }

/-- The signed transpose (`buttons.cpp` lines 282-285): the raw stored
value is cast `uint16_t` → `int16_t`, 24 is subtracted, and the result is
narrowed back into an `int16_t` variable. -/
def saxTranspose (db : Database) : Int :=
  toInt16 (toInt16 ((db.saxTransposeRaw % 65536 : Nat) : Int) - 24)

/-- Target-note computation of table mode (`buttons.cpp` lines 418-428):
`int16_t noteWide = bestNote + transpose`, clamped to `0..127`. -/
def saxTargetNote (db : Database) (bestNote : Nat) : Nat :=
  clampNote (toInt16 ((bestNote : Int) + saxTranspose db))

/-- A sax-mode Note Off publication (`buttons.cpp` lines 404-411 and
elsewhere): zero component index, the sax channel, value 0. -/
def saxNoteOffEvent (channel note : Nat) : BusEvent :=
  (eventType_t.BUTTON,
   { componentIndex := 0, channel := channel, index := note, value := 0,
     message := midiMessage_t.NOTE_OFF })

/-- A sax-mode Note On publication (`buttons.cpp` lines 446-452 and
520-526): zero component index, the sax channel, value 127. -/
def saxNoteOnEvent (channel note : Nat) : BusEvent :=
  (eventType_t.BUTTON,
   { componentIndex := 0, channel := channel, index := note, value := 127,
     message := midiMessage_t.NOTE_ON })

/-- The shared turn-off path (`buttons.cpp` lines 400-416 and 460-476):
when a note is sounding, publish its Note Off and clear the flag. -/
def saxTurnOff (st : ButtonsState) (channel : Nat) : ButtonsState × List BusEvent :=
  if st.saxNoteOn then
    ({ st with saxNoteOn := false }, [saxNoteOffEvent channel st.saxActiveNote])
  else (st, [])

/-- The shared note-emission path (`buttons.cpp` lines 430-456 and
502-529): suppress when the target equals the sounding note, otherwise
publish Note Off for the old note (when sounding) then Note On for the
new, recording the new note as sounding. -/
def saxEmitNote (st : ButtonsState) (channel newNote : Nat) : ButtonsState × List BusEvent :=
  if st.saxNoteOn = true ∧ st.saxActiveNote = newNote then (st, [])
  else
    let offs := if st.saxNoteOn then [saxNoteOffEvent channel st.saxActiveNote] else []
    ({ st with saxActiveNote := newNote, saxNoteOn := true },
     offs ++ [saxNoteOnEvent channel newNote])

/-- `Buttons::processSaxRegisterChromatic` (`buttons.cpp` lines 275-530):
table mode when any fingering entry is enabled, legacy
highest-key-priority mode otherwise. -/
def processSaxRegisterChromatic (cfg : Config) (db : Database)
    (st : ButtonsState) : ButtonsState × List BusEvent :=
  let channel := saxChannel db
  let currentMask := saxCurrentMask cfg db st
  let scan := saxScan cfg db currentMask
  if scan.anyEnabled then
    if scan.hasMatch = false ∨ currentMask = 0 then saxTurnOff st channel
    else saxEmitNote st channel (saxTargetNote db scan.bestNote)
  else
    match saxActiveKey cfg db st with
    | none => saxTurnOff st channel
    | some activeKey =>
      let activeKey16 := activeKey % 65536
      let mapRaw := db.saxKeyMap activeKey % 256
      let mappedKey0 := if mapRaw = 0 then activeKey16 else mapRaw - 1
      let mappedKey := if cfg.digitalCount ≤ mappedKey0 then activeKey16 else mappedKey0
      let base := db.saxBaseNote % 256
      saxEmitNote st channel
        (clampNote (toInt16 ((base : Int) + (mappedKey : Int) + saxTranspose db)))

/- `Buttons::captureSaxFingeringTableEntry` is a store-writing operation
and is not needed by the claims; it is omitted. -/

/-- The increment kinds of `ValueIncDecMIDI7Bit` (`conversion.h`, outside
the provided sources). -/
inductive incDecType where
  | OVERFLOW_WRAP
  | EDGE
  deriving DecidableEq, Repr

/-- Modelled from the spec: `ValueIncDecMIDI7Bit::increment`
(`conversion.h` is not among the provided sources; section 4.3 of the
spec: OVERFLOW wraps the 7-bit counter to zero past 127, EDGE clamps at
127). -/
def valueIncDec7Bit (current value : Nat) (ty : incDecType) : Nat :=
  match ty with
  | incDecType.OVERFLOW_WRAP => if current + value > 127 then 0 else current + value
  | incDecType.EDGE => min (current + value) 127

/-- Modelled from the spec: `MidiProgram.incrementProgram(channel, 1)`
(`midi_program.h` is not among the provided sources; section 4.3:
"increments global program counter by 1, clamped; suppressed if at
boundary").  Returns the new per-channel program map and the success
flag. -/
def midiProgramIncrement (program : Nat → Nat) (channel : Nat) : (Nat → Nat) × Bool :=
  if program channel < 127 then
    (fun c => if c = channel then program channel + 1 else program c, true)
  else (program, false)

/-- Modelled from the spec: `MidiProgram.decrementProgram(channel, 1)`
(section 4.3, symmetric to the increment). -/
def midiProgramDecrement (program : Nat → Nat) (channel : Nat) : (Nat → Nat) × Bool :=
  if 0 < program channel then
    (fun c => if c = channel then program channel - 1 else program c, true)
  else (program, false)

/-- Modelled from the spec: `MidiProgram.incrementOffset(value)` /
`decrementOffset(value)` mutate the global 7-bit program offset (section
4.3: "mutates the global program offset; never itself emits"). -/
def midiProgramOffsetAdd (offset value : Nat) : Nat :=
  (offset + value) % 128

/-- Modelled from the spec: the offset decrement, modulo 128. -/
def midiProgramOffsetSub (offset value : Nat) : Nat :=
  (offset + 128 - value % 128) % 128

/-- Modelled from the spec: `Bpm.increment(1)` (`bpm.h` is not among the
provided sources; section 4.3: "mutates global tempo; suppressed at
boundary"). -/
def bpmIncrement (cfg : Config) (bpm : Nat) : Nat × Bool :=
  if bpm < cfg.bpmMax then (bpm + 1, true) else (bpm, false)

/-- Modelled from the spec: `Bpm.decrement(1)`. -/
def bpmDecrement (cfg : Config) (bpm : Nat) : Nat × Bool :=
  if cfg.bpmMin < bpm then (bpm - 1, true) else (bpm, false)

/-- One payload byte of the custom SysEx frame (`buttons.cpp` lines
855-878): byte `i` (with `i < 14`) comes from stored 14-bit word `i / 2`,
the even byte being the low 7 bits and the odd byte the next 7 bits.
This mirrors the C++ loop, which writes word `w` to payload positions
`2*w` and `2*w + 1` and skips positions at or past 14. -/
def customSysExPayloadByte (db : Database) (index i : Nat) : Nat :=
  let word := db.sysexData (i / 2) index % 65536
  if i % 2 = 0 then word &&& 0x7F else (word >>> 7) &&& 0x7F

/-- The assembled frame before variable substitution (`buttons.cpp` lines
880-888): `F0`, the first `payloadLen` payload bytes, `F7`. -/
def customSysExBaseFrame (db : Database) (index payloadLen : Nat) : List Nat :=
  0xF0 :: ((List.range payloadLen).map (customSysExPayloadByte db index) ++ [0xF7])

/-- The frame after optional variable substitution (`buttons.cpp` lines
890-899): position `varPos` (full-frame indexing) is overwritten with
`varValue` when `varPos ≠ 0` and `varPos < length - 1`. -/
def customSysExFrame (db : Database) (index payloadLen varPos varValue : Nat) : List Nat :=
  let base := customSysExBaseFrame db index payloadLen
  if varPos ≠ 0 ∧ varPos < payloadLen + 1 then base.set varPos varValue else base

/-- `Buttons::sendMessage` (`buttons.cpp` lines 586-1071): per-kind policy
turning a press (`state = true`) or release (`state = false`) into zero or
more bus publications plus state mutations.  The debug-only
`OPENDECK_DEBUG_SYSEX_TRACE` block is compiled out and not modelled. -/
def sendMessage (cfg : Config) (st : ButtonsState) (db : Database)
    (index : Nat) (state : Bool) (descriptor : Descriptor) :
    ButtonsState × List BusEvent :=
  if state then
    match descriptor.messageType with
    | messageType_t.NOTE
    | messageType_t.CONTROL_CHANGE
    | messageType_t.CONTROL_CHANGE_RESET
    | messageType_t.REAL_TIME_CLOCK
    | messageType_t.REAL_TIME_START
    | messageType_t.REAL_TIME_CONTINUE
    | messageType_t.REAL_TIME_STOP
    | messageType_t.REAL_TIME_ACTIVE_SENSING
    | messageType_t.REAL_TIME_SYSTEM_RESET
    | messageType_t.MMC_PLAY
    | messageType_t.MMC_STOP
    | messageType_t.MMC_PAUSE
    | messageType_t.MMC_RECORD
    | messageType_t.MMC_PLAY_STOP =>
        (st, [(eventType_t.BUTTON, descriptor.event)])
    | messageType_t.NOTE_LEGATO =>
        let channel := descriptor.event.channel &&& 0x0F
        let newNote := descriptor.event.index &&& 0x7F
        let count := st.legatoButtonCount channel + 1
        let st1 := { st with legatoButtonCount := fun c =>
          if c = channel then count else st.legatoButtonCount c }
        let prevNote := st1.legatoActiveNote channel
        let offEvents :=
          if count > 1 ∧ prevNote ≠ newNote then
            [(eventType_t.BUTTON,
              { descriptor.event with index := prevNote, value := 0,
                                      message := midiMessage_t.NOTE_OFF })]
          else []
        let st2 := { st1 with legatoActiveNote := fun c =>
          if c = channel then newNote else st1.legatoActiveNote c }
        (st2, offEvents ++
          [(eventType_t.BUTTON,
            { descriptor.event with message := midiMessage_t.NOTE_ON })])
    | messageType_t.PROGRAM_CHANGE =>
        (st, [(eventType_t.BUTTON,
          { descriptor.event with
            value := 0,
            index := (descriptor.event.index + st.midiProgramOffset) &&& 0x7F })])
    | messageType_t.PROGRAM_CHANGE_INC =>
        let r := midiProgramIncrement st.midiProgram descriptor.event.channel
        let st1 := { st with midiProgram := r.1 }
        if r.2 then
          (st1, [(eventType_t.BUTTON,
            { descriptor.event with
              value := 0,
              index := r.1 descriptor.event.channel })])
        else (st1, [])
    | messageType_t.PROGRAM_CHANGE_DEC =>
        let r := midiProgramDecrement st.midiProgram descriptor.event.channel
        let st1 := { st with midiProgram := r.1 }
        if r.2 then
          (st1, [(eventType_t.BUTTON,
            { descriptor.event with
              value := 0,
              index := r.1 descriptor.event.channel })])
        else (st1, [])
    | messageType_t.MULTI_VAL_INC_RESET_NOTE =>
        let newValue := valueIncDec7Bit (st.incDecValue index) descriptor.event.value
          incDecType.OVERFLOW_WRAP
        if newValue ≠ st.incDecValue index then
          ({ st with incDecValue := fun i =>
              if i = index then newValue else st.incDecValue i },
           [(eventType_t.BUTTON,
             { descriptor.event with
               value := newValue,
               message := if newValue = 0 then midiMessage_t.NOTE_OFF
                          else midiMessage_t.NOTE_ON })])
        else (st, [])
    | messageType_t.MULTI_VAL_INC_DEC_NOTE =>
        let newValue := valueIncDec7Bit (st.incDecValue index) descriptor.event.value
          incDecType.EDGE
        if newValue ≠ st.incDecValue index then
          ({ st with incDecValue := fun i =>
              if i = index then newValue else st.incDecValue i },
           [(eventType_t.BUTTON,
             { descriptor.event with
               value := newValue,
               message := if newValue = 0 then midiMessage_t.NOTE_OFF
                          else midiMessage_t.NOTE_ON })])
        else (st, [])
    | messageType_t.MULTI_VAL_INC_RESET_CC =>
        let newValue := valueIncDec7Bit (st.incDecValue index) descriptor.event.value
          incDecType.OVERFLOW_WRAP
        if newValue ≠ st.incDecValue index then
          ({ st with incDecValue := fun i =>
              if i = index then newValue else st.incDecValue i },
           [(eventType_t.BUTTON, { descriptor.event with value := newValue })])
        else (st, [])
    | messageType_t.MULTI_VAL_INC_DEC_CC =>
        let newValue := valueIncDec7Bit (st.incDecValue index) descriptor.event.value
          incDecType.EDGE
        if newValue ≠ st.incDecValue index then
          ({ st with incDecValue := fun i =>
              if i = index then newValue else st.incDecValue i },
           [(eventType_t.BUTTON, { descriptor.event with value := newValue })])
        else (st, [])
    | messageType_t.NOTE_OFF_ONLY =>
        (st, [(eventType_t.BUTTON,
          { descriptor.event with value := 0, message := midiMessage_t.NOTE_OFF })])
    | messageType_t.CONTROL_CHANGE0_ONLY =>
        (st, [(eventType_t.BUTTON, { descriptor.event with value := 0 })])
    | messageType_t.BANK_SELECT_PROGRAM_CHANGE =>
        let bank := descriptor.event.value &&& 0x3FFF
        let bankMsb := (bank >>> 7) &&& 0x7F
        let bankLsb := bank &&& 0x7F
        (st, [(eventType_t.BUTTON,
               { descriptor.event with
                 message := midiMessage_t.CONTROL_CHANGE,
                 index := 0,
                 value := bankMsb }),
              (eventType_t.BUTTON,
               { descriptor.event with
                 message := midiMessage_t.CONTROL_CHANGE,
                 index := 32,
                 value := bankLsb }),
              (eventType_t.BUTTON,
               { descriptor.event with
                 message := midiMessage_t.PROGRAM_CHANGE,
                 index := descriptor.event.index &&& 0x7F,
                 value := 0 })])
    | messageType_t.CUSTOM_SYS_EX =>
        let payloadLen := db.sysexLength index % 256
        if payloadLen = 0 ∨ payloadLen > 14 then (st, [])
        else
          let varPos := descriptor.event.index &&& 0xFF
          let varValue := descriptor.event.value &&& 0x7F
          (st, [(eventType_t.BUTTON,
            { descriptor.event with
              sysEx := customSysExFrame db index payloadLen varPos varValue,
              sysExLength := payloadLen + 2,
              message := midiMessage_t.SYS_EX })])
    | messageType_t.PROGRAM_CHANGE_OFFSET_INC =>
        ({ st with midiProgramOffset :=
            midiProgramOffsetAdd st.midiProgramOffset descriptor.event.value },
         [(eventType_t.BUTTON, descriptor.event)])
    | messageType_t.PROGRAM_CHANGE_OFFSET_DEC =>
        ({ st with midiProgramOffset :=
            midiProgramOffsetSub st.midiProgramOffset descriptor.event.value },
         [(eventType_t.BUTTON, descriptor.event)])
    | messageType_t.PRESET_CHANGE =>
        (st, [(eventType_t.SYSTEM,
          { descriptor.event with
            systemMessage := systemMessage_t.PRESET_CHANGE_DIRECT_REQ })])
    | messageType_t.BPM_INC =>
        let r := bpmIncrement cfg st.bpm
        let st1 := { st with bpm := r.1 }
        if r.2 then
          (st1, [(eventType_t.BUTTON,
            { descriptor.event with value := 0, index := r.1 })])
        else (st1, [])
    | messageType_t.BPM_DEC =>
        let r := bpmDecrement cfg st.bpm
        let st1 := { st with bpm := r.1 }
        if r.2 then
          (st1, [(eventType_t.BUTTON,
            { descriptor.event with value := 0, index := r.1 })])
        else (st1, [])
    | messageType_t.NONE => (st, [])
  else
    match descriptor.messageType with
    | messageType_t.NOTE =>
        (st, [(eventType_t.BUTTON,
          { descriptor.event with value := 0, message := midiMessage_t.NOTE_OFF })])
    | messageType_t.NOTE_LEGATO =>
        let channel := descriptor.event.channel &&& 0x0F
        let c0 := st.legatoButtonCount channel
        let c1 := if c0 > 0 then c0 - 1 else c0
        let st1 := { st with legatoButtonCount := fun c =>
          if c = channel then c1 else st.legatoButtonCount c }
        if c1 = 0 then
          let note := st1.legatoActiveNote channel
          ({ st1 with legatoActiveNote := fun c =>
              if c = channel then 0 else st1.legatoActiveNote c },
           [(eventType_t.BUTTON,
             { descriptor.event with
               index := note,
               value := 0,
               message := midiMessage_t.NOTE_OFF })])
        else (st1, [])
    | messageType_t.CONTROL_CHANGE_RESET =>
        (st, [(eventType_t.BUTTON, { descriptor.event with value := 0 })])
    | messageType_t.MMC_RECORD =>
        (st, [(eventType_t.BUTTON,
          { descriptor.event with message := midiMessage_t.MMC_RECORD_STOP })])
    | messageType_t.MMC_PLAY_STOP =>
        (st, [(eventType_t.BUTTON,
          { descriptor.event with message := midiMessage_t.MMC_STOP })])
    | _ => (st, [])

/-- `Buttons::processButton` (`buttons.cpp` lines 199-257): act on change
of state only, commit the new state, hand digital inputs to the
register-chromatic override when it is compiled in and enabled, skip
`NONE`, apply latching toggle semantics for LATCHING inputs that are not
NOTE_LEGATO, then dispatch to `sendMessage`. -/
def processButton (cfg : Config) (db : Database) (st : ButtonsState)
    (index : Nat) (reading : Bool) (descriptor : Descriptor) :
    ButtonsState × List BusEvent :=
  if reading = st.state index then (st, [])
  else
    let st1 := st.setState index reading
    if cfg.saxRegisterChromatic = true ∧ index < cfg.digitalCount ∧ db.saxEnable = true then
      processSaxRegisterChromatic cfg db st1
    else if descriptor.messageType = messageType_t.NONE then (st1, [])
    else if descriptor.type = type_t.LATCHING ∧
            descriptor.messageType ≠ messageType_t.NOTE_LEGATO then
      if reading then
        if st1.latchingState index then
          sendMessage cfg (st1.setLatchingState index false) db index false descriptor
        else
          sendMessage cfg (st1.setLatchingState index true) db index true descriptor
      else (st1, [])
    else
      sendMessage cfg st1 db index reading descriptor

/-- A sequence of `processButton` calls, threading the state and
concatenating the published events (driver for multi-step scenarios). -/
def runButtons (cfg : Config) (db : Database) :
    ButtonsState → List (Nat × Bool × Descriptor) → ButtonsState × List BusEvent
  | st, [] => (st, [])
  | st, (i, r, d) :: rest =>
      let p := processButton cfg db st i r d
      let q := runButtons cfg db p.1 rest
      (q.1, p.2 ++ q.2)

/-- `Buttons::sysConfigSet` (`buttons.cpp` lines 1167-1184).  The store
update `_database.update(...)` is external; its success is the `updateOk`
argument.  On success the call acknowledges and, for the TYPE and
MESSAGE_TYPE sections, resets the input's transient state; on failure it
reports a write error and leaves the state alone. -/
def sysConfigSet (st : ButtonsState) (sec : buttonSection) (index : Nat)
    (updateOk : Bool) : ButtonsState × configStatus :=
  if updateOk then
    (if sec = buttonSection.TYPE ∨ sec = buttonSection.MESSAGE_TYPE then
       st.reset index
     else st,
     configStatus.ACK)
  else (st, configStatus.ERROR_WRITE)

/-! ## Specification-side definitions used to state the claims -/

/-- A fingering-table entry that the spec counts as a usable match: it is
enabled, its mask is a subset of the current mask, and its stored note is
in MIDI range.  (Entries with an out-of-range note are skipped by the
scan loop via `continue`.) -/
def validSaxMatch (cfg : Config) (db : Database) (currentMask entry : Nat) : Bool :=
  entryEnabled db entry &&
  (entryMask cfg db entry &&& currentMask == entryMask cfg db entry) &&
  (db.fingeringNote entry % 65536 ≤ 127)

/-- The winner the spec describes: a usable match whose mask population
count is maximal, taking the lowest index among equal counts. -/
def saxFirstMax (cfg : Config) (db : Database) (currentMask w : Nat) : Prop :=
  w < cfg.fingeringEntries ∧
  validSaxMatch cfg db currentMask w = true ∧
  (∀ e, e < cfg.fingeringEntries → validSaxMatch cfg db currentMask e = true →
    popcount32 (entryMask cfg db e) ≤ popcount32 (entryMask cfg db w)) ∧
  (∀ e, e < w → validSaxMatch cfg db currentMask e = true →
    popcount32 (entryMask cfg db e) < popcount32 (entryMask cfg db w))

/-- Reference recursion computing the winning entry among entries
`0 .. n-1`: first usable match, replaced only by a strictly higher
population count. -/
def saxSpecWinner (cfg : Config) (db : Database) (currentMask : Nat) : Nat → Option Nat
  | 0 => none
  | n + 1 =>
    match saxSpecWinner cfg db currentMask n with
    | none => if validSaxMatch cfg db currentMask n then some n else none
    | some w =>
      if validSaxMatch cfg db currentMask n ∧
         popcount32 (entryMask cfg db n) > popcount32 (entryMask cfg db w)
      then some n else some w

/-- Whether any of the entries `0 .. n-1` is enabled (tracks the loop's
`anyEnabled` flag). -/
def saxAnyEnabled (db : Database) (n : Nat) : Bool :=
  (List.range n).any (entryEnabled db)

/-- The remap rule of legacy mode as the spec words it: stored 0 means
identity, otherwise stored minus 1, and a target at or beyond the
digital-input count falls back to identity. -/
def saxRemappedKey (cfg : Config) (db : Database) (k : Nat) : Nat :=
  if db.saxKeyMap k = 0 then k
  else if cfg.digitalCount ≤ db.saxKeyMap k - 1 then k
  else db.saxKeyMap k - 1

/-! ## Concrete fixtures used by counterexamples and witnesses -/

/-- A fully cleared engine state (every bit 0, every counter 0). -/
def initState : ButtonsState :=
  { buttonPressed := fun _ => 0, lastLatchingState := fun _ => 0,
    legatoButtonCount := fun _ => 0, legatoActiveNote := fun _ => 0,
    incDecValue := fun _ => 0, midiProgramOffset := 0, midiProgram := fun _ => 0,
    bpm := 120, saxNoteOn := false, saxActiveNote := 0 }

/-- A store with every value zeroed, global channel 1 and neutral
transpose (raw 24). -/
def dbDefault : Database :=
  { sysexLength := fun _ => 0, sysexData := fun _ _ => 0, saxEnable := false,
    saxBaseNote := 0, saxTransposeRaw := 24, saxInvert := false,
    globalChannelRaw := 1, fingeringHiEn := fun _ => 0, fingeringLo14 := fun _ => 0,
    fingeringNote := fun _ => 0, saxKeyMap := fun _ => 0 }

/-- A build without the register-chromatic feature, eight digital inputs. -/
def cfgDefault : Config :=
  { digitalCount := 8, fingeringEntries := 4, saxRegisterChromatic := false,
    bpmMin := 20, bpmMax := 300 }

/-- A build with the register-chromatic feature and five digital inputs
(matching the spec's legacy-priority example over inputs 0-4). -/
def cfgSax : Config :=
  { digitalCount := 5, fingeringEntries := 4, saxRegisterChromatic := true,
    bpmMin := 20, bpmMax := 300 }

/-- Store for the custom-SysEx scenarios: button 0 has payload length 3
and first stored word `0x0201`. -/
def dbSysEx0201 : Database :=
  { dbDefault with
    sysexLength := fun i => if i = 0 then 3 else 0,
    sysexData := fun w i => if w = 0 ∧ i = 0 then 0x0201 else 0 }

/-- Store identical to `dbSysEx0201` except the first stored word is
`0x0101`, the 7-bit little-endian packing of bytes `01 02`. -/
def dbSysEx0101 : Database :=
  { dbDefault with
    sysexLength := fun i => if i = 0 then 3 else 0,
    sysexData := fun w i => if w = 0 ∧ i = 0 then 0x0101 else 0 }

/-- Custom-SysEx descriptor with variable substitution disabled
(configured position `MIDI_ID = 0`) and variable value `0x55`. -/
def descSysExVarOff : Descriptor :=
  { type := type_t.MOMENTARY, messageType := messageType_t.CUSTOM_SYS_EX,
    event := { componentIndex := 0, channel := 0, index := 0, value := 0x55 } }

/-- Custom-SysEx descriptor with variable position 2 and value `0x55`. -/
def descSysExVar2 : Descriptor :=
  { type := type_t.MOMENTARY, messageType := messageType_t.CUSTOM_SYS_EX,
    event := { componentIndex := 0, channel := 0, index := 2, value := 0x55 } }

/-- A NOTE_LEGATO descriptor for input `j` with the given channel, note
and velocity. -/
def legatoDescriptor (j channel note velocity : Nat) : Descriptor :=
  { type := type_t.MOMENTARY, messageType := messageType_t.NOTE_LEGATO,
    event := { componentIndex := j, channel := channel, index := note,
               value := velocity } }

/-- A LATCHING descriptor whose message kind is NONE. -/
def descNoneLatching : Descriptor :=
  { type := type_t.LATCHING, messageType := messageType_t.NONE,
    event := { componentIndex := 0, channel := 0, index := 60, value := 100 } }

/-- A LATCHING descriptor whose message kind is NOTE. -/
def descNoteLatching : Descriptor :=
  { type := type_t.LATCHING, messageType := messageType_t.NOTE,
    event := { componentIndex := 0, channel := 0, index := 60, value := 100 } }

/-- A bank-select descriptor with identifier 12 and 14-bit value 391. -/
def descBank391 : Descriptor :=
  { type := type_t.MOMENTARY, messageType := messageType_t.BANK_SELECT_PROGRAM_CHANGE,
    event := { componentIndex := 0, channel := 0, index := 12, value := 391 } }

/-- Sax-enabled store with base note 60 (for the legacy-priority
example). -/
def dbSaxBase60 : Database :=
  { dbDefault with saxEnable := true, saxBaseNote := 60 }

/-- State with digital keys 2 and 4 pressed (byte 0 holds bits 2 and 4,
value 20) and no sax note sounding. -/
def stKeys24 : ButtonsState :=
  { initState with buttonPressed := fun a => if a = 0 then 20 else 0 }

/-- State with keys 2 and 4 pressed and sax note 64 sounding. -/
def stKeys24Sounding : ButtonsState :=
  { stKeys24 with saxNoteOn := true, saxActiveNote := 64 }

/-- State with only key 2 pressed (byte value 4) and sax note 64
sounding — the situation right after key 4 is released. -/
def stKey2Sounding : ButtonsState :=
  { initState with
    buttonPressed := fun a => if a = 0 then 4 else 0,
    saxNoteOn := true, saxActiveNote := 64 }

/-- Sax-enabled store whose fingering entry 0 is enabled with mask
`{key 0}` and stored note 128 (out of MIDI range). -/
def dbNote128 : Database :=
  { dbDefault with
    saxEnable := true,
    fingeringHiEn := fun e => if e = 0 then 1024 else 0,
    fingeringLo14 := fun e => if e = 0 then 1 else 0,
    fingeringNote := fun e => if e = 0 then 128 else 0 }

/-- State with digital key 0 pressed and sax note 5 sounding. -/
def stKey0Sounding : ButtonsState :=
  { initState with
    buttonPressed := fun a => if a = 0 then 1 else 0,
    saxNoteOn := true, saxActiveNote := 5 }

/-- Sax-enabled store with two enabled fingering entries: entry 0
requires keys `{0, 1}` (note 70), entry 1 requires keys `{0, 1, 2}`
(note 80). -/
def dbTwoEntries : Database :=
  { dbDefault with
    saxEnable := true,
    fingeringHiEn := fun e => if e < 2 then 1024 else 0,
    fingeringLo14 := fun e => if e = 0 then 3 else if e = 1 then 7 else 0,
    fingeringNote := fun e => if e = 0 then 70 else if e = 1 then 80 else 0 }

/-- State with digital keys 0, 1 and 2 pressed (byte value 7). -/
def stKeys012 : ButtonsState :=
  { initState with buttonPressed := fun a => if a = 0 then 7 else 0 }

/-- State with one legato press outstanding on channel 0, note 60
sounding. -/
def stLegato1 : ButtonsState :=
  { initState with
    legatoButtonCount := fun c => if c = 0 then 1 else 0,
    legatoActiveNote := fun c => if c = 0 then 60 else 0 }

/-- Point update of the two legato maps at one channel (the shape of the
state after the NOTE_LEGATO arms of `sendMessage`). -/
def legatoState (base : ButtonsState) (ch cnt note : Nat) : ButtonsState :=
  { base with
    legatoButtonCount := fun k => if k = ch then cnt else base.legatoButtonCount k,
    legatoActiveNote := fun k => if k = ch then note else base.legatoActiveNote k }

/-! ## Bit-store lemmas -/

/-- Writing a bit makes that bit read back as written. -/
theorem testBit_BIT_WRITE_self (v bit : Nat) (b : Bool) :
    (BIT_WRITE v bit b).testBit bit = b := by
  unfold BIT_WRITE
  split
  · assumption
  · rename_i h
    rw [Nat.testBit_xor, Nat.one_shiftLeft, Nat.testBit_two_pow_self]
    cases hb : v.testBit bit <;> cases b <;> simp_all

/-- Writing a bit leaves every other bit unchanged. -/
theorem testBit_BIT_WRITE_ne (v bit k : Nat) (b : Bool) (h : k ≠ bit) :
    (BIT_WRITE v bit b).testBit k = v.testBit k := by
  unfold BIT_WRITE
  split
  · rfl
  · rw [Nat.testBit_xor, Nat.one_shiftLeft, Nat.testBit_two_pow_of_ne (Ne.symm h)]
    simp

/-- Distinct input indices address distinct (byte, bit) positions. -/
theorem index_byte_bit_inj (i j : Nat) (hij : i ≠ j) :
    j / 8 ≠ i / 8 ∨ j - 8 * (j / 8) ≠ i - 8 * (i / 8) := by
  by_contra hc
  push_neg at hc
  omega

/-- `setState` stores the written bit. -/
theorem state_setState_self (st : ButtonsState) (i : Nat) (b : Bool) :
    (st.setState i b).state i = b := by
  simp [ButtonsState.setState, ButtonsState.state, BIT_READ, testBit_BIT_WRITE_self]

/-- `setState` does not change the pressed bit of any other index. -/
theorem state_setState_ne (st : ButtonsState) (i j : Nat) (b : Bool) (h : j ≠ i) :
    (st.setState i b).state j = st.state j := by
  simp only [ButtonsState.setState, ButtonsState.state, BIT_READ]
  rcases index_byte_bit_inj i j (Ne.symm h) with hb | hb
  · simp [hb]
  · split
    · rename_i heq
      rw [heq] at hb ⊢
      exact testBit_BIT_WRITE_ne _ _ _ _ hb
    · rfl

/-- `setLatchingState` stores the written bit. -/
theorem latchingState_set_self (st : ButtonsState) (i : Nat) (b : Bool) :
    (st.setLatchingState i b).latchingState i = b := by
  simp [ButtonsState.setLatchingState, ButtonsState.latchingState, BIT_READ,
    testBit_BIT_WRITE_self]

/-- `setLatchingState` does not change the latching bit of any other
index. -/
theorem latchingState_set_ne (st : ButtonsState) (i j : Nat) (b : Bool) (h : j ≠ i) :
    (st.setLatchingState i b).latchingState j = st.latchingState j := by
  simp only [ButtonsState.setLatchingState, ButtonsState.latchingState, BIT_READ]
  rcases index_byte_bit_inj i j (Ne.symm h) with hb | hb
  · simp [hb]
  · split
    · rename_i heq
      rw [heq] at hb ⊢
      exact testBit_BIT_WRITE_ne _ _ _ _ hb
    · rfl

/-- The two bit stores are independent: `setLatchingState` does not touch
the pressed bits, and `setState` does not touch the latching bits. -/
theorem state_setLatchingState (st : ButtonsState) (i j : Nat) (b : Bool) :
    (st.setLatchingState i b).state j = st.state j := rfl

/-- `setState` leaves every latching bit unchanged. -/
theorem latchingState_setState (st : ButtonsState) (i j : Nat) (b : Bool) :
    (st.setState i b).latchingState j = st.latchingState j := rfl

/-! ## Frame preservation: which state fields each operation can touch -/

/-- `sendMessage` never writes the pressed-bit store. -/
theorem sendMessage_buttonPressed (cfg : Config) (st : ButtonsState) (db : Database)
    (i : Nat) (s : Bool) (d : Descriptor) :
    (sendMessage cfg st db i s d).1.buttonPressed = st.buttonPressed := by
  cases s <;> cases hd : d.messageType <;>
    simp only [sendMessage, hd] <;>
    (repeat' split) <;> rfl

/-- `sendMessage` never writes the latching-bit store. -/
theorem sendMessage_lastLatchingState (cfg : Config) (st : ButtonsState) (db : Database)
    (i : Nat) (s : Bool) (d : Descriptor) :
    (sendMessage cfg st db i s d).1.lastLatchingState = st.lastLatchingState := by
  cases s <;> cases hd : d.messageType <;>
    simp only [sendMessage, hd] <;>
    (repeat' split) <;> rfl

/-- The register-chromatic engine touches only the sax fields. -/
theorem processSax_buttonPressed (cfg : Config) (db : Database) (st : ButtonsState) :
    (processSaxRegisterChromatic cfg db st).1.buttonPressed = st.buttonPressed := by
  simp only [processSaxRegisterChromatic, saxTurnOff, saxEmitNote]
  (repeat' split) <;> rfl

/-- The register-chromatic engine never writes the latching-bit store. -/
theorem processSax_lastLatchingState (cfg : Config) (db : Database) (st : ButtonsState) :
    (processSaxRegisterChromatic cfg db st).1.lastLatchingState = st.lastLatchingState := by
  simp only [processSaxRegisterChromatic, saxTurnOff, saxEmitNote]
  (repeat' split) <;> rfl

/-- The pressed-bit store after `processButton` on an actual edge is
exactly the one written by the initial `setState`. -/
theorem processButton_buttonPressed (cfg : Config) (db : Database) (st : ButtonsState)
    (i : Nat) (reading : Bool) (d : Descriptor) (h : reading ≠ st.state i) :
    (processButton cfg db st i reading d).1.buttonPressed =
      (st.setState i reading).buttonPressed := by
  simp only [processButton, if_neg h]
  split
  · exact processSax_buttonPressed ..
  · split
    · rfl
    · split
      · split
        · split <;>
            exact sendMessage_buttonPressed ..
        · rfl
      · exact sendMessage_buttonPressed ..

/-- Two states with the same pressed-bit store read the same pressed
bits. -/
theorem state_eq_of_buttonPressed (st1 st2 : ButtonsState)
    (h : st1.buttonPressed = st2.buttonPressed) (j : Nat) :
    st1.state j = st2.state j := by
  simp [ButtonsState.state, BIT_READ, h]

/-- Two states with the same latching-bit store read the same latching
bits. -/
theorem latchingState_eq_of_store (st1 st2 : ButtonsState)
    (h : st1.lastLatchingState = st2.lastLatchingState) (j : Nat) :
    st1.latchingState j = st2.latchingState j := by
  simp [ButtonsState.latchingState, BIT_READ, h]

/-! ## Claim C9 -/

/-- C9: after every `processButton(index, reading, descriptor)` call in
which `reading` differs from the stored pressed bit, the stored pressed
bit for `index` equals `reading` — on every path, including the
register-chromatic override, message kind NONE, and suppressed latching
releases — and the pressed bit of every other index is unchanged. -/
theorem c9_pressed_bit_commit (cfg : Config) (db : Database) (st : ButtonsState)
    (i : Nat) (reading : Bool) (d : Descriptor) (h : reading ≠ st.state i) :
    (processButton cfg db st i reading d).1.state i = reading ∧
    ∀ j, j ≠ i → (processButton cfg db st i reading d).1.state j = st.state j := by
  have hbp := processButton_buttonPressed cfg db st i reading d h
  constructor
  · rw [state_eq_of_buttonPressed _ (st.setState i reading) hbp i]
    exact state_setState_self st i reading
  · intro j hj
    rw [state_eq_of_buttonPressed _ (st.setState i reading) hbp j]
    exact state_setState_ne st i j reading hj

/-- Witness for C9 at a concrete edge: pressing input 0 (message kind
NONE, so nothing is emitted) still commits the pressed bit and leaves
input 1 alone. -/
theorem c9_pressed_bit_commit_witness :
    (true ≠ initState.state 0) ∧
    ((processButton cfgDefault dbDefault initState 0 true descNoneLatching).1.state 0 = true ∧
     ∀ j, j ≠ 0 →
       (processButton cfgDefault dbDefault initState 0 true descNoneLatching).1.state j =
         initState.state j) :=
  ⟨by decide,
   c9_pressed_bit_commit cfgDefault dbDefault initState 0 true descNoneLatching (by decide)⟩

/-! ## Claim C8 -/

/-- C8: a configuration write through the buttons adapter acknowledges
exactly when the store update succeeds and reports a write error
otherwise; on success, rewriting the TYPE or MESSAGE_TYPE section clears
both the pressed and the latching bit of the input; on failure the
transient state is untouched. -/
theorem c8_sysconfig_set (st : ButtonsState) (sec : buttonSection) (index : Nat)
    (updateOk : Bool) :
    ((sysConfigSet st sec index updateOk).2 = configStatus.ACK ↔ updateOk = true) ∧
    (updateOk = true → (sec = buttonSection.TYPE ∨ sec = buttonSection.MESSAGE_TYPE) →
      (sysConfigSet st sec index updateOk).1.state index = false ∧
      (sysConfigSet st sec index updateOk).1.latchingState index = false) ∧
    (updateOk = false →
      (sysConfigSet st sec index updateOk).1 = st ∧
      (sysConfigSet st sec index updateOk).2 = configStatus.ERROR_WRITE) := by
  cases updateOk
  · refine ⟨by simp [sysConfigSet], by simp, by simp [sysConfigSet]⟩
  · refine ⟨by simp [sysConfigSet], ?_, by simp⟩
    intro _ hsec
    have hfst : (sysConfigSet st sec index true).1 = st.reset index := by
      simp [sysConfigSet, if_pos hsec]
    rw [hfst]
    constructor
    · rw [ButtonsState.reset, state_setLatchingState, state_setState_self]
    · exact latchingState_set_self ..

/-- Witness for C8 at a concrete input: a successful MESSAGE_TYPE write
acknowledges and clears transient state; instantiated via the theorem. -/
theorem c8_sysconfig_set_witness :
    ((sysConfigSet stKeys24 buttonSection.MESSAGE_TYPE 2 true).2 = configStatus.ACK ↔
      true = true) ∧
    (true = true →
      (buttonSection.MESSAGE_TYPE = buttonSection.TYPE ∨
       buttonSection.MESSAGE_TYPE = buttonSection.MESSAGE_TYPE) →
      (sysConfigSet stKeys24 buttonSection.MESSAGE_TYPE 2 true).1.state 2 = false ∧
      (sysConfigSet stKeys24 buttonSection.MESSAGE_TYPE 2 true).1.latchingState 2 = false) ∧
    (true = false →
      (sysConfigSet stKeys24 buttonSection.MESSAGE_TYPE 2 true).1 = stKeys24 ∧
      (sysConfigSet stKeys24 buttonSection.MESSAGE_TYPE 2 true).2 =
        configStatus.ERROR_WRITE) :=
  c8_sysconfig_set stKeys24 buttonSection.MESSAGE_TYPE 2 true

/-! ## Arithmetic helpers for the bank-select decomposition -/

/-- Masking with `0x3FFF` before the 7-bit MSB extraction is redundant. -/
theorem bank_msb_eq (v : Nat) :
    ((v &&& 16383) >>> 7) &&& 127 = (v >>> 7) &&& 127 := by
  have h14 : v &&& 16383 = v % 16384 := by
    have h := Nat.and_pow_two_sub_one_eq_mod v 14
    norm_num at h
    exact h
  have h7a : (v % 16384) &&& 127 = v % 128 := by
    have h := Nat.and_pow_two_sub_one_eq_mod (v % 16384) 7
    norm_num at h
    exact h
  have hs1 : (v % 16384) >>> 7 = v % 16384 / 128 := by
    rw [Nat.shiftRight_eq_div_pow]
  have hs2 : v >>> 7 = v / 128 := by
    rw [Nat.shiftRight_eq_div_pow]
  have h7b : (v % 16384 / 128) &&& 127 = v % 16384 / 128 % 128 := by
    have h := Nat.and_pow_two_sub_one_eq_mod (v % 16384 / 128) 7
    norm_num at h
    exact h
  have h7c : (v / 128) &&& 127 = v / 128 % 128 := by
    have h := Nat.and_pow_two_sub_one_eq_mod (v / 128) 7
    norm_num at h
    exact h
  rw [h14, hs1, hs2, h7b, h7c]
  omega

/-- Masking with `0x3FFF` before the 7-bit LSB extraction is redundant. -/
theorem bank_lsb_eq (v : Nat) :
    (v &&& 16383) &&& 127 = v &&& 127 := by
  have h14 : v &&& 16383 = v % 16384 := by
    have h := Nat.and_pow_two_sub_one_eq_mod v 14
    norm_num at h
    exact h
  have h7a : (v % 16384) &&& 127 = v % 128 := by
    have h := Nat.and_pow_two_sub_one_eq_mod (v % 16384) 7
    norm_num at h
    exact h
  have h7b : v &&& 127 = v % 128 := by
    have h := Nat.and_pow_two_sub_one_eq_mod v 7
    norm_num at h
    exact h
  rw [h14, h7a, h7b]

/-! ## Claim C5 -/

/-- C5: every BANK_SELECT_PROGRAM_CHANGE press publishes exactly three
events in order — CC number 0 with value `(value >>> 7) &&& 0x7F`, CC
number 32 with value `value &&& 0x7F`, and Program Change with program
`identifier &&& 0x7F` — and suppresses the input's own event; the state
is unchanged. -/
theorem c5_bank_select (cfg : Config) (st : ButtonsState) (db : Database)
    (i : Nat) (d : Descriptor)
    (h : d.messageType = messageType_t.BANK_SELECT_PROGRAM_CHANGE) :
    sendMessage cfg st db i true d =
      (st,
       [(eventType_t.BUTTON,
         { d.event with
           message := midiMessage_t.CONTROL_CHANGE,
           index := 0,
           value := (d.event.value >>> 7) &&& 0x7F }),
        (eventType_t.BUTTON,
         { d.event with
           message := midiMessage_t.CONTROL_CHANGE,
           index := 32,
           value := d.event.value &&& 0x7F }),
        (eventType_t.BUTTON,
         { d.event with
           message := midiMessage_t.PROGRAM_CHANGE,
           index := d.event.index &&& 0x7F,
           value := 0 })]) := by
  rcases d with ⟨ty, mt, ev⟩
  cases h
  simp [sendMessage, bank_msb_eq, bank_lsb_eq]

/-- Witness for C5: value 391 with identifier 12 decomposes to CC0=3,
CC32=7, PC=12. -/
theorem c5_bank_select_witness :
    descBank391.messageType = messageType_t.BANK_SELECT_PROGRAM_CHANGE ∧
    (sendMessage cfgDefault initState dbDefault 0 true descBank391).2 =
      [(eventType_t.BUTTON,
        { componentIndex := 0, channel := 0, index := 0, value := 3,
          message := midiMessage_t.CONTROL_CHANGE }),
       (eventType_t.BUTTON,
        { componentIndex := 0, channel := 0, index := 32, value := 7,
          message := midiMessage_t.CONTROL_CHANGE }),
       (eventType_t.BUTTON,
        { componentIndex := 0, channel := 0, index := 12, value := 0,
          message := midiMessage_t.PROGRAM_CHANGE })] := by
  refine ⟨rfl, ?_⟩
  rw [c5_bank_select cfgDefault initState dbDefault 0 descBank391 rfl]
  decide

/-! ## Claim C2 -/

/-- Counterexample to C2 as stated: with the channel-0 press-reference
count already 0, a NOTE_LEGATO release still publishes a Note Off (for
the cleared active note 0) — the claim says a Note Off is emitted only on
a transition to 0, never when the count was already 0. -/
theorem c2_counterexample :
    initState.legatoButtonCount 0 = 0 ∧
    (sendMessage cfgDefault initState dbDefault 0 false
        (legatoDescriptor 0 0 60 100)).2 =
      [(eventType_t.BUTTON,
        { componentIndex := 0, channel := 0, index := 0, value := 0,
          message := midiMessage_t.NOTE_OFF })] := by
  constructor
  · rfl
  · decide

/-- C2 (amended): on a NOTE_LEGATO release the per-channel count is
decremented with a guard at zero (so, as a natural number, it never
becomes negative and equals the truncated predecessor), and `sendMessage`
publishes a Note Off exactly when the post-decrement count is zero: when
the count before the release was 0 or 1.  While the count remains
positive (at least 2 before the release) nothing is published. -/
theorem c2_legato_release (cfg : Config) (st : ButtonsState) (db : Database)
    (i : Nat) (d : Descriptor)
    (h : d.messageType = messageType_t.NOTE_LEGATO) :
    ((sendMessage cfg st db i false d).1.legatoButtonCount
        (d.event.channel &&& 0x0F) =
      st.legatoButtonCount (d.event.channel &&& 0x0F) - 1) ∧
    (2 ≤ st.legatoButtonCount (d.event.channel &&& 0x0F) →
      (sendMessage cfg st db i false d).2 = []) ∧
    (st.legatoButtonCount (d.event.channel &&& 0x0F) ≤ 1 →
      (sendMessage cfg st db i false d).2 =
        [(eventType_t.BUTTON,
          { d.event with
            index := st.legatoActiveNote (d.event.channel &&& 0x0F),
            value := 0,
            message := midiMessage_t.NOTE_OFF })]) := by
  rcases d with ⟨ty, mt, ev⟩
  cases h
  cases hc : st.legatoButtonCount (ev.channel &&& 0x0F) with
  | zero => simp [sendMessage, hc]
  | succ k =>
    cases k with
    | zero => simp [sendMessage, hc]
    | succ m =>
      refine ⟨?_, ?_, ?_⟩
      · simp [sendMessage, hc]
      · intro _
        simp [sendMessage, hc]
      · intro hle
        omega

/-- Witness for C2 at a concrete release: one press outstanding on
channel 0 (count 1, note 60 sounding); the release transitions the count
to 0 and publishes exactly the Note Off for note 60. -/
theorem c2_legato_release_witness :
    (legatoDescriptor 0 0 60 100).messageType = messageType_t.NOTE_LEGATO ∧
    ((sendMessage cfgDefault stLegato1 dbDefault 0 false
        (legatoDescriptor 0 0 60 100)).1.legatoButtonCount 0 = 0 ∧
     (sendMessage cfgDefault stLegato1 dbDefault 0 false
        (legatoDescriptor 0 0 60 100)).2 =
       [(eventType_t.BUTTON,
         { componentIndex := 0, channel := 0, index := 60, value := 0,
           message := midiMessage_t.NOTE_OFF })]) := by
  have h := c2_legato_release cfgDefault stLegato1 dbDefault 0
    (legatoDescriptor 0 0 60 100) rfl
  refine ⟨rfl, ?_, ?_⟩
  · have h1 := h.1
    simpa [legatoDescriptor, stLegato1] using h1
  · have h3 := h.2.2 (by simp [legatoDescriptor, stLegato1])
    simpa [legatoDescriptor, stLegato1] using h3

/-! ## Claim C6 -/

/-- Counterexample to C6 as stated: a LATCHING input whose message kind
is NONE (which is not NOTE_LEGATO) receives a press edge from a cleared
latch bit, yet the latching bit is not toggled — the NONE check runs
before the latching toggle, so the whole block is skipped. -/
theorem c6_counterexample :
    descNoneLatching.type = type_t.LATCHING ∧
    descNoneLatching.messageType ≠ messageType_t.NOTE_LEGATO ∧
    initState.state 0 = false ∧
    initState.latchingState 0 = false ∧
    (processButton cfgDefault dbDefault initState 0 true descNoneLatching).1.latchingState 0
      = false := by
  refine ⟨rfl, by decide, rfl, rfl, ?_⟩
  decide

/-- C6 (amended): for a LATCHING input whose message kind is neither
NOTE_LEGATO nor NONE, when the register-chromatic override does not
consume the edge: a press edge with the latch bit cleared sets the latch
and behaves as `sendMessage` with phase on; a press edge with the latch
bit set clears the latch and behaves as `sendMessage` with phase off (so
successive presses alternate, the latch always equal to the last emitted
phase); a release edge publishes nothing and leaves the latch bit
alone. -/
theorem c6_latching_toggle (cfg : Config) (db : Database) (st : ButtonsState)
    (i : Nat) (reading : Bool) (d : Descriptor)
    (hT : d.type = type_t.LATCHING)
    (h1 : d.messageType ≠ messageType_t.NOTE_LEGATO)
    (h2 : ¬ d.messageType = messageType_t.NONE)
    (hsax : ¬ (cfg.saxRegisterChromatic = true ∧ i < cfg.digitalCount ∧
               db.saxEnable = true))
    (hedge : ¬ reading = st.state i) :
    (reading = true → st.latchingState i = false →
      processButton cfg db st i reading d =
        sendMessage cfg ((st.setState i true).setLatchingState i true) db i true d ∧
      (processButton cfg db st i reading d).1.latchingState i = true) ∧
    (reading = true → st.latchingState i = true →
      processButton cfg db st i reading d =
        sendMessage cfg ((st.setState i true).setLatchingState i false) db i false d ∧
      (processButton cfg db st i reading d).1.latchingState i = false) ∧
    (reading = false →
      (processButton cfg db st i reading d).2 = [] ∧
      (processButton cfg db st i reading d).1.latchingState i = st.latchingState i) := by
  refine ⟨?_, ?_, ?_⟩
  · intro hr hl
    subst hr
    have hlat : (st.setState i true).latchingState i = false := by
      rw [latchingState_setState]; exact hl
    have hpb : processButton cfg db st i true d =
        sendMessage cfg ((st.setState i true).setLatchingState i true) db i true d := by
      simp only [processButton]
      rw [if_neg hedge, if_neg hsax, if_neg h2, if_pos (And.intro hT h1)]
      simp [hlat]
    refine ⟨hpb, ?_⟩
    rw [hpb,
      latchingState_eq_of_store _ ((st.setState i true).setLatchingState i true)
        (sendMessage_lastLatchingState ..) i]
    exact latchingState_set_self ..
  · intro hr hl
    subst hr
    have hlat : (st.setState i true).latchingState i = true := by
      rw [latchingState_setState]; exact hl
    have hpb : processButton cfg db st i true d =
        sendMessage cfg ((st.setState i true).setLatchingState i false) db i false d := by
      simp only [processButton]
      rw [if_neg hedge, if_neg hsax, if_neg h2, if_pos (And.intro hT h1)]
      simp [hlat]
    refine ⟨hpb, ?_⟩
    rw [hpb,
      latchingState_eq_of_store _ ((st.setState i true).setLatchingState i false)
        (sendMessage_lastLatchingState ..) i]
    exact latchingState_set_self ..
  · intro hr
    subst hr
    have hpb : processButton cfg db st i false d = (st.setState i false, []) := by
      simp only [processButton]
      rw [if_neg hedge, if_neg hsax, if_neg h2, if_pos (And.intro hT h1)]
      simp
    rw [hpb]
    exact ⟨rfl, latchingState_setState ..⟩

/-- Witness for C6: a LATCHING NOTE input pressed from a cleared latch
emits the Note On phase and sets the latch bit. -/
theorem c6_latching_toggle_witness :
    (true ≠ initState.state 0) ∧
    ((processButton cfgDefault dbDefault initState 0 true descNoteLatching).1.latchingState 0
       = true ∧
     (processButton cfgDefault dbDefault initState 0 true descNoteLatching).2 =
       [(eventType_t.BUTTON, descNoteLatching.event)]) := by
  have h := (c6_latching_toggle cfgDefault dbDefault initState 0 true descNoteLatching
    rfl (by decide) (by decide) (by decide) (by decide)).1 rfl rfl
  refine ⟨by decide, h.2, ?_⟩
  rw [h.1]
  decide

/-! ## Claim C1 -/

/-- Counterexample to C1 as stated: with stored payload length 3 and
first stored 14-bit word `0x0201`, the press edge emits the frame
`F0 01 04 00 F7`, not one beginning `F0 01 02`: by the little-endian
7-bit split the claim itself states, `0x0201 = 513` yields bytes
`513 &&& 0x7F = 0x01` and `(513 >>> 7) &&& 0x7F = 0x04`. -/
theorem c1_counterexample :
    (processButton cfgDefault dbSysEx0201 initState 0 true descSysExVarOff).2 =
      [(eventType_t.BUTTON,
        { componentIndex := 0, channel := 0, index := 0, value := 0x55,
          message := midiMessage_t.SYS_EX,
          sysEx := [0xF0, 0x01, 0x04, 0x00, 0xF7], sysExLength := 5 })] ∧
    ((processButton cfgDefault dbSysEx0201 initState 0 true descSysExVarOff).2.map
        (fun e => e.2.sysEx)) ≠ [[0xF0, 0x01, 0x02, 0x00, 0xF7]] := by
  constructor
  · decide
  · decide

/-- C1 (amended): with stored payload length 3 and first stored 14-bit
word `0x0101` (the little-endian 7-bit packing `0x01 ||| (0x02 <<< 7)` of
bytes `01 02`), a press edge emits a SysEx frame whose bytes begin
`F0 01 02` and end with `F7`; and with configured variable position 2 and
variable value `0x55`, the 3rd frame byte of the emitted frame is
`0x55`. -/
theorem c1_custom_sysex_assembly :
    (processButton cfgDefault dbSysEx0101 initState 0 true descSysExVarOff).2 =
      [(eventType_t.BUTTON,
        { componentIndex := 0, channel := 0, index := 0, value := 0x55,
          message := midiMessage_t.SYS_EX,
          sysEx := [0xF0, 0x01, 0x02, 0x00, 0xF7], sysExLength := 5 })] ∧
    (processButton cfgDefault dbSysEx0101 initState 0 true descSysExVar2).2 =
      [(eventType_t.BUTTON,
        { componentIndex := 0, channel := 0, index := 2, value := 0x55,
          message := midiMessage_t.SYS_EX,
          sysEx := [0xF0, 0x01, 0x55, 0x00, 0xF7], sysExLength := 5 })] := by
  constructor
  · decide
  · decide

/-! ## Claim C10 -/

/-- The base frame has length `payloadLen + 2`. -/
theorem customSysExBaseFrame_length (db : Database) (i p : Nat) :
    (customSysExBaseFrame db i p).length = p + 2 := by
  simp [customSysExBaseFrame]

/-- The base frame splits as payload-with-header plus trailing `F7`. -/
theorem customSysExBaseFrame_split (db : Database) (i p : Nat) :
    customSysExBaseFrame db i p =
      (0xF0 :: (List.range p).map (customSysExPayloadByte db i)) ++ [0xF7] := by
  simp [customSysExBaseFrame]

/-- C10: every published CUSTOM_SYS_EX event is well-framed.  When the
stored payload length `p` is 0 or above 14 nothing is published; when
`1 ≤ p ≤ 14` exactly one event is published, carrying the frame of
length `p + 2` whose first byte is `0xF0` and last byte `0xF7`, with the
variable substituted only when its position lies in `1 .. p` (so neither
the leading `0xF0` nor the trailing `0xF7` is ever overwritten). -/
theorem c10_custom_sysex_framed (cfg : Config) (st : ButtonsState) (db : Database)
    (i : Nat) (d : Descriptor)
    (hmt : d.messageType = messageType_t.CUSTOM_SYS_EX) :
    ((db.sysexLength i % 256 = 0 ∨ db.sysexLength i % 256 > 14) →
      (sendMessage cfg st db i true d).2 = []) ∧
    (1 ≤ db.sysexLength i % 256 → db.sysexLength i % 256 ≤ 14 →
      (sendMessage cfg st db i true d).2 =
        [(eventType_t.BUTTON,
          { d.event with
            sysEx := customSysExFrame db i (db.sysexLength i % 256)
              (d.event.index &&& 0xFF) (d.event.value &&& 0x7F),
            sysExLength := db.sysexLength i % 256 + 2,
            message := midiMessage_t.SYS_EX })] ∧
      (customSysExFrame db i (db.sysexLength i % 256)
          (d.event.index &&& 0xFF) (d.event.value &&& 0x7F)).length =
        db.sysexLength i % 256 + 2 ∧
      (customSysExFrame db i (db.sysexLength i % 256)
          (d.event.index &&& 0xFF) (d.event.value &&& 0x7F)).head? = some 0xF0 ∧
      (customSysExFrame db i (db.sysexLength i % 256)
          (d.event.index &&& 0xFF) (d.event.value &&& 0x7F)).getLast? = some 0xF7 ∧
      (¬ (d.event.index &&& 0xFF ≠ 0 ∧
            d.event.index &&& 0xFF ≤ db.sysexLength i % 256) →
        customSysExFrame db i (db.sysexLength i % 256)
            (d.event.index &&& 0xFF) (d.event.value &&& 0x7F) =
          customSysExBaseFrame db i (db.sysexLength i % 256))) := by
  rcases d with ⟨ty, mt, ev⟩
  cases hmt
  dsimp only
  constructor
  · intro hp
    simp [sendMessage, if_pos hp]
  · intro hp1 hp14
    have hcond : ¬ (db.sysexLength i % 256 = 0 ∨ db.sysexLength i % 256 > 14) := by
      omega
    refine ⟨?_, ?_, ?_, ?_, ?_⟩
    · simp [sendMessage, if_neg hcond]
    · unfold customSysExFrame
      split <;> simp [customSysExBaseFrame_length]
    · unfold customSysExFrame
      split
      · rename_i hvar
        obtain ⟨k, hk⟩ := Nat.exists_eq_succ_of_ne_zero hvar.1
        rw [customSysExBaseFrame_split, List.cons_append, hk, List.set_cons_succ]
        rfl
      · rw [customSysExBaseFrame_split, List.cons_append]
        rfl
    · unfold customSysExFrame
      split
      · rename_i hvar
        rw [customSysExBaseFrame_split,
          List.set_append_left _ _ (by simp; omega), List.getLast?_concat]
      · rw [customSysExBaseFrame_split, List.getLast?_concat]
    · intro hno
      unfold customSysExFrame
      rw [if_neg ?_]
      intro hc
      exact hno ⟨hc.1, by omega⟩

/-- Witness for C10: the concrete `0x0101` store (payload length 3) with
variable position 2; the published frame is `[F0, 01, 55, 00, F7]`. -/
theorem c10_custom_sysex_framed_witness :
    (1 ≤ dbSysEx0101.sysexLength 0 % 256 ∧ dbSysEx0101.sysexLength 0 % 256 ≤ 14) ∧
    ((sendMessage cfgDefault initState dbSysEx0101 0 true descSysExVar2).2 =
       [(eventType_t.BUTTON,
         { descSysExVar2.event with
           sysEx := customSysExFrame dbSysEx0101 0 (dbSysEx0101.sysexLength 0 % 256)
             (descSysExVar2.event.index &&& 0xFF) (descSysExVar2.event.value &&& 0x7F),
           sysExLength := dbSysEx0101.sysexLength 0 % 256 + 2,
           message := midiMessage_t.SYS_EX })] ∧
     customSysExFrame dbSysEx0101 0 (dbSysEx0101.sysexLength 0 % 256)
         (descSysExVar2.event.index &&& 0xFF) (descSysExVar2.event.value &&& 0x7F) =
       [0xF0, 0x01, 0x55, 0x00, 0xF7]) := by
  have h := c10_custom_sysex_framed cfgDefault initState dbSysEx0101 0 descSysExVar2 rfl
  have h2 := h.2 (by decide) (by decide)
  exact ⟨by decide, h2.1, by decide⟩

/-! ## Legato step lemmas (towards claim C4) -/

/-- Values below 128 pass the 7-bit mask unchanged. -/
theorem land127_eq (a : Nat) (h : a < 128) : a &&& 127 = a := by
  have h7 := Nat.and_pow_two_sub_one_eq_mod a 7
  norm_num at h7
  rw [h7]
  exact Nat.mod_eq_of_lt h

/-- Values below 16 pass the 4-bit mask unchanged. -/
theorem land15_eq (a : Nat) (h : a < 16) : a &&& 15 = a := by
  have h4 := Nat.and_pow_two_sub_one_eq_mod a 4
  norm_num at h4
  rw [h4]
  exact Nat.mod_eq_of_lt h

/-- The legato maps do not touch the pressed bits. -/
theorem legatoState_state (base : ButtonsState) (ch cnt note j : Nat) :
    (legatoState base ch cnt note).state j = base.state j := rfl

/-- Reading back the updated count. -/
theorem legatoState_count_self (base : ButtonsState) (ch cnt note : Nat) :
    (legatoState base ch cnt note).legatoButtonCount ch = cnt := by
  simp [legatoState]

/-- Reading back the updated active note. -/
theorem legatoState_active_self (base : ButtonsState) (ch cnt note : Nat) :
    (legatoState base ch cnt note).legatoActiveNote ch = note := by
  simp [legatoState]

/-- `processButton` on a NOTE_LEGATO edge that the register-chromatic
override does not consume reduces to `sendMessage` after the state
commit (the latching toggle never applies to NOTE_LEGATO). -/
theorem processButton_legato (cfg : Config) (db : Database) (st : ButtonsState)
    (i : Nat) (reading : Bool) (d : Descriptor)
    (hmt : d.messageType = messageType_t.NOTE_LEGATO)
    (hsax : ¬ (cfg.saxRegisterChromatic = true ∧ i < cfg.digitalCount ∧
               db.saxEnable = true))
    (hedge : ¬ reading = st.state i) :
    processButton cfg db st i reading d =
      sendMessage cfg (st.setState i reading) db i reading d := by
  simp only [processButton]
  rw [if_neg hedge, if_neg hsax, if_neg (by simp [hmt]), if_neg (by simp [hmt])]

/-- The NOTE_LEGATO press arm of `sendMessage`, written out: the channel
count is incremented, the active note replaced, a Note Off for the old
note precedes the Note On exactly when another press was outstanding on
a different note. -/
theorem sendMessage_legato_press (cfg : Config) (st : ButtonsState) (db : Database)
    (i : Nat) (d : Descriptor)
    (hmt : d.messageType = messageType_t.NOTE_LEGATO) :
    sendMessage cfg st db i true d =
      (legatoState st (d.event.channel &&& 0x0F)
         (st.legatoButtonCount (d.event.channel &&& 0x0F) + 1)
         (d.event.index &&& 0x7F),
       (if st.legatoButtonCount (d.event.channel &&& 0x0F) + 1 > 1 ∧
           st.legatoActiveNote (d.event.channel &&& 0x0F) ≠ d.event.index &&& 0x7F then
          [(eventType_t.BUTTON,
            { d.event with
              index := st.legatoActiveNote (d.event.channel &&& 0x0F),
              value := 0,
              message := midiMessage_t.NOTE_OFF })]
        else []) ++
       [(eventType_t.BUTTON,
         { d.event with message := midiMessage_t.NOTE_ON })]) := by
  rcases d with ⟨ty, mt, ev⟩
  cases hmt
  rfl

/-- The NOTE_LEGATO release arm while other presses remain outstanding
(count at least 2): the count is decremented and nothing is published. -/
theorem sendMessage_legato_release_pos (cfg : Config) (st : ButtonsState)
    (db : Database) (i : Nat) (d : Descriptor)
    (hmt : d.messageType = messageType_t.NOTE_LEGATO)
    (hc : 2 ≤ st.legatoButtonCount (d.event.channel &&& 0x0F)) :
    sendMessage cfg st db i false d =
      ({ st with legatoButtonCount := fun k =>
          if k = d.event.channel &&& 0x0F then
            st.legatoButtonCount (d.event.channel &&& 0x0F) - 1
          else st.legatoButtonCount k },
       []) := by
  rcases d with ⟨ty, mt, ev⟩
  cases hmt
  dsimp only at hc
  obtain ⟨m, hm⟩ : ∃ m, st.legatoButtonCount (ev.channel &&& 0x0F) = m + 2 :=
    ⟨st.legatoButtonCount (ev.channel &&& 0x0F) - 2, by omega⟩
  simp [sendMessage, hm]

/-- The NOTE_LEGATO release arm of the last outstanding press (count at
most 1): the count is forced to zero, the active-note marker cleared and
its Note Off published. -/
theorem sendMessage_legato_release_last (cfg : Config) (st : ButtonsState)
    (db : Database) (i : Nat) (d : Descriptor)
    (hmt : d.messageType = messageType_t.NOTE_LEGATO)
    (hc : st.legatoButtonCount (d.event.channel &&& 0x0F) ≤ 1) :
    sendMessage cfg st db i false d =
      (legatoState st (d.event.channel &&& 0x0F) 0 0,
       [(eventType_t.BUTTON,
         { d.event with
           index := st.legatoActiveNote (d.event.channel &&& 0x0F),
           value := 0,
           message := midiMessage_t.NOTE_OFF })]) := by
  rcases d with ⟨ty, mt, ev⟩
  cases hmt
  dsimp only at hc
  cases hcnt : st.legatoButtonCount (ev.channel &&& 0x0F) with
  | zero => simp [sendMessage, hcnt, legatoState]
  | succ n =>
    rw [hcnt] at hc
    have hn : n = 0 := by omega
    subst hn
    simp [sendMessage, hcnt, legatoState]

/-- A NOTE_LEGATO press edge through `processButton`, with the channel
named: the count is bumped, the active note replaced, and the Note Off /
Note On pair published per the note-stealing rule. -/
theorem legato_press_step (cfg : Config) (db : Database) (st : ButtonsState)
    (i : Nat) (d : Descriptor) (ch' : Nat)
    (hsax : ∀ j, ¬ (cfg.saxRegisterChromatic = true ∧ j < cfg.digitalCount ∧
                    db.saxEnable = true))
    (hmt : d.messageType = messageType_t.NOTE_LEGATO)
    (hch : d.event.channel &&& 0x0F = ch')
    (hstate : st.state i = false) :
    processButton cfg db st i true d =
      (legatoState (st.setState i true) ch' (st.legatoButtonCount ch' + 1)
         (d.event.index &&& 0x7F),
       (if st.legatoButtonCount ch' + 1 > 1 ∧
           st.legatoActiveNote ch' ≠ d.event.index &&& 0x7F then
          [(eventType_t.BUTTON,
            { d.event with
              index := st.legatoActiveNote ch',
              value := 0,
              message := midiMessage_t.NOTE_OFF })]
        else []) ++
       [(eventType_t.BUTTON,
         { d.event with message := midiMessage_t.NOTE_ON })]) := by
  have h1 := processButton_legato cfg db st i true d hmt (hsax i) (by simp [hstate])
  have h2 := sendMessage_legato_press cfg (st.setState i true) db i d hmt
  rw [hch] at h2
  exact h1.trans h2

/-- Releasing NOTE_LEGATO inputs while more of them stay held than are
released: nothing is published, the channel count drops by the number of
releases, and the active note survives. -/
theorem legato_release_run_short (cfg : Config) (db : Database) (ch' : Nat)
    (hsax : ∀ i, ¬ (cfg.saxRegisterChromatic = true ∧ i < cfg.digitalCount ∧
                    db.saxEnable = true)) :
    ∀ (xs : List (Nat × Bool × Descriptor)) (st : ButtonsState),
      (∀ x ∈ xs, x.2.1 = false ∧ x.2.2.messageType = messageType_t.NOTE_LEGATO ∧
        x.2.2.event.channel &&& 0x0F = ch' ∧ st.state x.1 = true) →
      (xs.map (fun t => t.1)).Nodup →
      xs.length < st.legatoButtonCount ch' →
      (runButtons cfg db st xs).2 = [] ∧
      (runButtons cfg db st xs).1.legatoButtonCount ch' =
        st.legatoButtonCount ch' - xs.length ∧
      (runButtons cfg db st xs).1.legatoActiveNote ch' =
        st.legatoActiveNote ch' := by
  intro xs
  induction xs with
  | nil =>
    intro st _ _ _
    exact ⟨rfl, by simp [runButtons], rfl⟩
  | cons x rest ih =>
    intro st hall hnd hlen
    obtain ⟨i, r, d⟩ := x
    obtain ⟨hr, hmt, hch, hpressed⟩ := hall (i, r, d) (by simp)
    dsimp only at hr hmt hch hpressed
    subst hr
    simp only [List.map_cons, List.nodup_cons] at hnd
    obtain ⟨hni, hndrest⟩ := hnd
    simp only [List.length_cons] at hlen
    have hstep := processButton_legato cfg db st i false d hmt (hsax i)
      (by simp [hpressed])
    have hrel := sendMessage_legato_release_pos cfg (st.setState i false) db i d hmt
      (by rw [hch]; show 2 ≤ st.legatoButtonCount ch'; omega)
    rw [hch] at hrel
    obtain ⟨ST, hST, hSTcnt, hSTact, hSTstate⟩ :
        ∃ ST, sendMessage cfg (st.setState i false) db i false d = (ST, []) ∧
          ST.legatoButtonCount ch' = st.legatoButtonCount ch' - 1 ∧
          ST.legatoActiveNote ch' = st.legatoActiveNote ch' ∧
          (∀ j, ST.state j = (st.setState i false).state j) := by
      refine ⟨_, hrel, by simp [ButtonsState.setState], rfl, fun j => rfl⟩
    have hcond : ∀ y ∈ rest, y.2.1 = false ∧
        y.2.2.messageType = messageType_t.NOTE_LEGATO ∧
        y.2.2.event.channel &&& 0x0F = ch' ∧ ST.state y.1 = true := by
      intro y hy
      obtain ⟨h1, h2, h3, h4⟩ := hall y (List.mem_cons_of_mem _ hy)
      refine ⟨h1, h2, h3, ?_⟩
      rw [hSTstate y.1, state_setState_ne st i y.1 false ?_]
      · exact h4
      · intro he
        exact hni (he ▸ List.mem_map_of_mem (fun t => t.1) hy)
    obtain ⟨ihev, ihcnt, ihact⟩ := ih ST hcond hndrest (by rw [hSTcnt]; omega)
    simp only [runButtons, hstep, hST]
    refine ⟨by simp [ihev], ?_, ?_⟩
    · rw [ihcnt, hSTcnt]
      simp only [List.length_cons]
      omega
    · rw [ihact, hSTact]

/-- Releasing exactly as many NOTE_LEGATO inputs as are held: the first
releases publish nothing, and the final one publishes the single Note
Off of the channel's active note. -/
theorem legato_release_run_exact (cfg : Config) (db : Database) (ch' : Nat)
    (hsax : ∀ i, ¬ (cfg.saxRegisterChromatic = true ∧ i < cfg.digitalCount ∧
                    db.saxEnable = true)) :
    ∀ (xs : List (Nat × Bool × Descriptor)) (z : Nat × Bool × Descriptor)
      (st : ButtonsState),
      (∀ x ∈ xs ++ [z], x.2.1 = false ∧
        x.2.2.messageType = messageType_t.NOTE_LEGATO ∧
        x.2.2.event.channel &&& 0x0F = ch' ∧ st.state x.1 = true) →
      ((xs ++ [z]).map (fun t => t.1)).Nodup →
      st.legatoButtonCount ch' = xs.length + 1 →
      (runButtons cfg db st (xs ++ [z])).2 =
        [(eventType_t.BUTTON,
          { z.2.2.event with
            index := st.legatoActiveNote ch',
            value := 0,
            message := midiMessage_t.NOTE_OFF })] := by
  intro xs
  induction xs with
  | nil =>
    intro z st hall hnd hcnt
    obtain ⟨i, r, d⟩ := z
    obtain ⟨hr, hmt, hch, hpressed⟩ := hall (i, r, d) (by simp)
    dsimp only at hr hmt hch hpressed ⊢
    subst hr
    simp only [List.length_nil, Nat.zero_add] at hcnt
    have hstep := processButton_legato cfg db st i false d hmt (hsax i)
      (by simp [hpressed])
    have hrel := sendMessage_legato_release_last cfg (st.setState i false) db i d hmt
      (by rw [hch]; show st.legatoButtonCount ch' ≤ 1; omega)
    rw [hch] at hrel
    simp only [List.nil_append, runButtons, hstep, hrel]
    rfl
  | cons x xs' ih =>
    intro z st hall hnd hcnt
    obtain ⟨i, r, d⟩ := x
    obtain ⟨hr, hmt, hch, hpressed⟩ := hall (i, r, d) (by simp)
    dsimp only at hr hmt hch hpressed
    subst hr
    simp only [List.cons_append, List.map_cons, List.nodup_cons] at hnd
    obtain ⟨hni, hndrest⟩ := hnd
    simp only [List.length_cons] at hcnt
    have hstep := processButton_legato cfg db st i false d hmt (hsax i)
      (by simp [hpressed])
    have hrel := sendMessage_legato_release_pos cfg (st.setState i false) db i d hmt
      (by rw [hch]; show 2 ≤ st.legatoButtonCount ch'; omega)
    rw [hch] at hrel
    obtain ⟨ST, hST, hSTcnt, hSTact, hSTstate⟩ :
        ∃ ST, sendMessage cfg (st.setState i false) db i false d = (ST, []) ∧
          ST.legatoButtonCount ch' = st.legatoButtonCount ch' - 1 ∧
          ST.legatoActiveNote ch' = st.legatoActiveNote ch' ∧
          (∀ j, ST.state j = (st.setState i false).state j) := by
      refine ⟨_, hrel, by simp [ButtonsState.setState], rfl, fun j => rfl⟩
    have hcond : ∀ y ∈ xs' ++ [z], y.2.1 = false ∧
        y.2.2.messageType = messageType_t.NOTE_LEGATO ∧
        y.2.2.event.channel &&& 0x0F = ch' ∧ ST.state y.1 = true := by
      intro y hy
      obtain ⟨h1, h2, h3, h4⟩ := hall y (List.mem_cons_of_mem _ hy)
      refine ⟨h1, h2, h3, ?_⟩
      rw [hSTstate y.1, state_setState_ne st i y.1 false ?_]
      · exact h4
      · intro he
        exact hni (he ▸ List.mem_map_of_mem (fun t => t.1) hy)
    have hih := ih z ST hcond hndrest (by rw [hSTcnt]; omega)
    simp only [List.cons_append, runButtons, hstep, hST]
    rw [hSTact] at hih
    simp [hih]

/-! ## Claim C4 -/

/-- C4: three NOTE_LEGATO inputs (0, 1, 2) mapped to distinct notes `a`,
`b`, `c` on one channel.  Pressing them in order publishes exactly
`On(a)`, then `Off(a)` followed by `On(b)`, then `Off(b)` followed by
`On(c)`.  Afterwards, releasing the three inputs in any order publishes
nothing on the first two releases and exactly one Note Off (of the
sounding note `c`) on the last. -/
theorem c4_legato_sequence (a b c ch vel : Nat)
    (ha : a < 128) (hb : b < 128) (hc : c < 128) (hch : ch < 16)
    (hab : a ≠ b) (hbc : b ≠ c) (hac : a ≠ c) :
    (runButtons cfgDefault dbDefault initState
        [(0, true, legatoDescriptor 0 ch a vel),
         (1, true, legatoDescriptor 1 ch b vel),
         (2, true, legatoDescriptor 2 ch c vel)]).2 =
      [(eventType_t.BUTTON,
        { (legatoDescriptor 0 ch a vel).event with message := midiMessage_t.NOTE_ON }),
       (eventType_t.BUTTON,
        { (legatoDescriptor 1 ch b vel).event with
          index := a, value := 0, message := midiMessage_t.NOTE_OFF }),
       (eventType_t.BUTTON,
        { (legatoDescriptor 1 ch b vel).event with message := midiMessage_t.NOTE_ON }),
       (eventType_t.BUTTON,
        { (legatoDescriptor 2 ch c vel).event with
          index := b, value := 0, message := midiMessage_t.NOTE_OFF }),
       (eventType_t.BUTTON,
        { (legatoDescriptor 2 ch c vel).event with message := midiMessage_t.NOTE_ON })] ∧
    (∀ x y z : Nat × Bool × Descriptor,
      [x, y, z].Perm
        [(0, false, legatoDescriptor 0 ch a vel),
         (1, false, legatoDescriptor 1 ch b vel),
         (2, false, legatoDescriptor 2 ch c vel)] →
      (runButtons cfgDefault dbDefault
        (runButtons cfgDefault dbDefault initState
          [(0, true, legatoDescriptor 0 ch a vel),
           (1, true, legatoDescriptor 1 ch b vel),
           (2, true, legatoDescriptor 2 ch c vel)]).1 [x]).2 = [] ∧
      (runButtons cfgDefault dbDefault
        (runButtons cfgDefault dbDefault initState
          [(0, true, legatoDescriptor 0 ch a vel),
           (1, true, legatoDescriptor 1 ch b vel),
           (2, true, legatoDescriptor 2 ch c vel)]).1 [x, y]).2 = [] ∧
      (runButtons cfgDefault dbDefault
        (runButtons cfgDefault dbDefault initState
          [(0, true, legatoDescriptor 0 ch a vel),
           (1, true, legatoDescriptor 1 ch b vel),
           (2, true, legatoDescriptor 2 ch c vel)]).1 [x, y, z]).2 =
        [(eventType_t.BUTTON,
          { z.2.2.event with
            index := c, value := 0, message := midiMessage_t.NOTE_OFF })]) := by
  have hsaxD : ∀ i, ¬ (cfgDefault.saxRegisterChromatic = true ∧
      i < cfgDefault.digitalCount ∧ dbDefault.saxEnable = true) := by
    intro i
    simp [cfgDefault]
  have hch15 : ch &&& 15 = ch := land15_eq ch hch
  have ha127 : a &&& 127 = a := land127_eq a ha
  have hb127 : b &&& 127 = b := land127_eq b hb
  have hc127 : c &&& 127 = c := land127_eq c hc
  -- press 0
  have e1 := legato_press_step cfgDefault dbDefault initState 0
    (legatoDescriptor 0 ch a vel) ch hsaxD rfl
    (by simpa [legatoDescriptor] using hch15) (by decide)
  have e1' : processButton cfgDefault dbDefault initState 0 true
      (legatoDescriptor 0 ch a vel) =
      (legatoState (initState.setState 0 true) ch 1 a,
       [(eventType_t.BUTTON,
         { (legatoDescriptor 0 ch a vel).event with
           message := midiMessage_t.NOTE_ON })]) := by
    rw [e1]
    simp [legatoDescriptor, initState, ha127]
  -- press 1
  have hT1s : (legatoState (initState.setState 0 true) ch 1 a).state 1 = false := by
    rw [legatoState_state, state_setState_ne initState 0 1 true (by decide)]
    decide
  have e2 := legato_press_step cfgDefault dbDefault
    (legatoState (initState.setState 0 true) ch 1 a) 1
    (legatoDescriptor 1 ch b vel) ch hsaxD rfl
    (by simpa [legatoDescriptor] using hch15) hT1s
  have e2' : processButton cfgDefault dbDefault
      (legatoState (initState.setState 0 true) ch 1 a) 1 true
      (legatoDescriptor 1 ch b vel) =
      (legatoState ((legatoState (initState.setState 0 true) ch 1 a).setState 1 true)
         ch 2 b,
       [(eventType_t.BUTTON,
         { (legatoDescriptor 1 ch b vel).event with
           index := a, value := 0, message := midiMessage_t.NOTE_OFF }),
        (eventType_t.BUTTON,
         { (legatoDescriptor 1 ch b vel).event with
           message := midiMessage_t.NOTE_ON })]) := by
    rw [e2]
    simp [legatoState_count_self, legatoState_active_self, legatoDescriptor,
      hb127, hab]
  -- press 2
  have hT2s : (legatoState
      ((legatoState (initState.setState 0 true) ch 1 a).setState 1 true)
      ch 2 b).state 2 = false := by
    rw [legatoState_state,
      state_setState_ne (legatoState (initState.setState 0 true) ch 1 a) 1 2 true
        (by decide),
      legatoState_state, state_setState_ne initState 0 2 true (by decide)]
    decide
  have e3 := legato_press_step cfgDefault dbDefault
    (legatoState ((legatoState (initState.setState 0 true) ch 1 a).setState 1 true)
      ch 2 b) 2
    (legatoDescriptor 2 ch c vel) ch hsaxD rfl
    (by simpa [legatoDescriptor] using hch15) hT2s
  have e3' : processButton cfgDefault dbDefault
      (legatoState ((legatoState (initState.setState 0 true) ch 1 a).setState 1 true)
        ch 2 b) 2 true
      (legatoDescriptor 2 ch c vel) =
      (legatoState
         ((legatoState
            ((legatoState (initState.setState 0 true) ch 1 a).setState 1 true)
            ch 2 b).setState 2 true) ch 3 c,
       [(eventType_t.BUTTON,
         { (legatoDescriptor 2 ch c vel).event with
           index := b, value := 0, message := midiMessage_t.NOTE_OFF }),
        (eventType_t.BUTTON,
         { (legatoDescriptor 2 ch c vel).event with
           message := midiMessage_t.NOTE_ON })]) := by
    rw [e3]
    simp [legatoState_count_self, legatoState_active_self, legatoDescriptor,
      hc127, hbc]
  have hrun : runButtons cfgDefault dbDefault initState
      [(0, true, legatoDescriptor 0 ch a vel),
       (1, true, legatoDescriptor 1 ch b vel),
       (2, true, legatoDescriptor 2 ch c vel)] =
      (legatoState
         ((legatoState
            ((legatoState (initState.setState 0 true) ch 1 a).setState 1 true)
            ch 2 b).setState 2 true) ch 3 c,
       [(eventType_t.BUTTON,
         { (legatoDescriptor 0 ch a vel).event with
           message := midiMessage_t.NOTE_ON }),
        (eventType_t.BUTTON,
         { (legatoDescriptor 1 ch b vel).event with
           index := a, value := 0, message := midiMessage_t.NOTE_OFF }),
        (eventType_t.BUTTON,
         { (legatoDescriptor 1 ch b vel).event with
           message := midiMessage_t.NOTE_ON }),
        (eventType_t.BUTTON,
         { (legatoDescriptor 2 ch c vel).event with
           index := b, value := 0, message := midiMessage_t.NOTE_OFF }),
        (eventType_t.BUTTON,
         { (legatoDescriptor 2 ch c vel).event with
           message := midiMessage_t.NOTE_ON })]) := by
    simp [runButtons, e1', e2', e3']
  refine ⟨by rw [hrun], ?_⟩
  -- release part
  intro x y z hperm
  have hS3 : (runButtons cfgDefault dbDefault initState
      [(0, true, legatoDescriptor 0 ch a vel),
       (1, true, legatoDescriptor 1 ch b vel),
       (2, true, legatoDescriptor 2 ch c vel)]).1 =
      legatoState
        ((legatoState
           ((legatoState (initState.setState 0 true) ch 1 a).setState 1 true)
           ch 2 b).setState 2 true) ch 3 c := by
    rw [hrun]
  have hs0 : (legatoState
      ((legatoState
         ((legatoState (initState.setState 0 true) ch 1 a).setState 1 true)
         ch 2 b).setState 2 true) ch 3 c).state 0 = true := by
    rw [legatoState_state, state_setState_ne _ 2 0 true (by decide),
      legatoState_state, state_setState_ne _ 1 0 true (by decide),
      legatoState_state, state_setState_self]
  have hs1 : (legatoState
      ((legatoState
         ((legatoState (initState.setState 0 true) ch 1 a).setState 1 true)
         ch 2 b).setState 2 true) ch 3 c).state 1 = true := by
    rw [legatoState_state, state_setState_ne _ 2 1 true (by decide),
      legatoState_state, state_setState_self]
  have hs2 : (legatoState
      ((legatoState
         ((legatoState (initState.setState 0 true) ch 1 a).setState 1 true)
         ch 2 b).setState 2 true) ch 3 c).state 2 = true := by
    rw [legatoState_state, state_setState_self]
  have hcnt3 : (legatoState
      ((legatoState
         ((legatoState (initState.setState 0 true) ch 1 a).setState 1 true)
         ch 2 b).setState 2 true) ch 3 c).legatoButtonCount ch = 3 :=
    legatoState_count_self ..
  have hact3 : (legatoState
      ((legatoState
         ((legatoState (initState.setState 0 true) ch 1 a).setState 1 true)
         ch 2 b).setState 2 true) ch 3 c).legatoActiveNote ch = c :=
    legatoState_active_self ..
  have hxm : x ∈ [(0, false, legatoDescriptor 0 ch a vel),
      (1, false, legatoDescriptor 1 ch b vel),
      (2, false, legatoDescriptor 2 ch c vel)] := hperm.subset (by simp)
  have hym : y ∈ [(0, false, legatoDescriptor 0 ch a vel),
      (1, false, legatoDescriptor 1 ch b vel),
      (2, false, legatoDescriptor 2 ch c vel)] := hperm.subset (by simp)
  have hzm : z ∈ [(0, false, legatoDescriptor 0 ch a vel),
      (1, false, legatoDescriptor 1 ch b vel),
      (2, false, legatoDescriptor 2 ch c vel)] := hperm.subset (by simp)
  have hmap : [x.1, y.1, z.1].Perm [0, 1, 2] := by
    have h := hperm.map (fun t => t.1)
    simpa using h
  have hnodup3 : ([x.1, y.1, z.1] : List Nat).Nodup :=
    hmap.nodup_iff.mpr (by decide)
  simp only [List.nodup_cons, List.mem_cons, List.mem_singleton,
    List.not_mem_nil, or_false, not_or] at hnodup3
  obtain ⟨⟨hxy, hxz⟩, hyz, -⟩ := hnodup3
  have hq : ∀ w, w ∈ [(0, false, legatoDescriptor 0 ch a vel),
      (1, false, legatoDescriptor 1 ch b vel),
      (2, false, legatoDescriptor 2 ch c vel)] →
      w.2.1 = false ∧ w.2.2.messageType = messageType_t.NOTE_LEGATO ∧
      w.2.2.event.channel &&& 0x0F = ch ∧
      (legatoState
        ((legatoState
           ((legatoState (initState.setState 0 true) ch 1 a).setState 1 true)
           ch 2 b).setState 2 true) ch 3 c).state w.1 = true := by
    intro w hw
    rcases (show w = (0, false, legatoDescriptor 0 ch a vel) ∨
        w = (1, false, legatoDescriptor 1 ch b vel) ∨
        w = (2, false, legatoDescriptor 2 ch c vel) by simpa using hw) with
      rfl | rfl | rfl
    · exact ⟨rfl, rfl, by simpa [legatoDescriptor] using hch15, hs0⟩
    · exact ⟨rfl, rfl, by simpa [legatoDescriptor] using hch15, hs1⟩
    · exact ⟨rfl, rfl, by simpa [legatoDescriptor] using hch15, hs2⟩
  rw [hS3]
  refine ⟨?_, ?_, ?_⟩
  · refine (legato_release_run_short cfgDefault dbDefault ch hsaxD [x] _ ?_ ?_ ?_).1
    · intro w hw
      rw [List.mem_singleton] at hw
      subst hw
      exact hq w hxm
    · simp
    · simp [hcnt3]
  · refine (legato_release_run_short cfgDefault dbDefault ch hsaxD [x, y] _ ?_ ?_ ?_).1
    · intro w hw
      rcases (by simpa using hw : w = x ∨ w = y) with rfl | rfl
      · exact hq w hxm
      · exact hq w hym
    · simp [hxy]
    · simp [hcnt3]
  · rw [show ([x, y, z] : List (Nat × Bool × Descriptor)) = [x, y] ++ [z] from rfl]
    have hfin := legato_release_run_exact cfgDefault dbDefault ch hsaxD [x, y] z
      (legatoState
        ((legatoState
           ((legatoState (initState.setState 0 true) ch 1 a).setState 1 true)
           ch 2 b).setState 2 true) ch 3 c)
      ?_ ?_ ?_
    · rw [hfin, hact3]
    · intro w hw
      rcases (by simpa using hw : w = x ∨ w = y ∨ w = z) with rfl | rfl | rfl
      · exact hq w hxm
      · exact hq w hym
      · exact hq w hzm
    · simp [hxy, hxz, hyz]
    · simp [hcnt3]

/-- Witness for C4 with notes 60, 62, 64 on channel 0: the press run
publishes On(60), Off(60), On(62), Off(62), On(64), and the release
order 1, 0, 2 publishes exactly Off(64) at the last release. -/
theorem c4_legato_sequence_witness :
    ((60 : Nat) < 128 ∧ (62 : Nat) < 128 ∧ (64 : Nat) < 128 ∧ (0 : Nat) < 16 ∧
     (60 : Nat) ≠ 62 ∧ (62 : Nat) ≠ 64 ∧ (60 : Nat) ≠ 64) ∧
    (runButtons cfgDefault dbDefault initState
        [(0, true, legatoDescriptor 0 0 60 100),
         (1, true, legatoDescriptor 1 0 62 100),
         (2, true, legatoDescriptor 2 0 64 100)]).2 =
      [(eventType_t.BUTTON,
        { componentIndex := 0, channel := 0, index := 60, value := 100,
          message := midiMessage_t.NOTE_ON }),
       (eventType_t.BUTTON,
        { componentIndex := 1, channel := 0, index := 60, value := 0,
          message := midiMessage_t.NOTE_OFF }),
       (eventType_t.BUTTON,
        { componentIndex := 1, channel := 0, index := 62, value := 100,
          message := midiMessage_t.NOTE_ON }),
       (eventType_t.BUTTON,
        { componentIndex := 2, channel := 0, index := 62, value := 0,
          message := midiMessage_t.NOTE_OFF }),
       (eventType_t.BUTTON,
        { componentIndex := 2, channel := 0, index := 64, value := 100,
          message := midiMessage_t.NOTE_ON })] ∧
    (runButtons cfgDefault dbDefault
        (runButtons cfgDefault dbDefault initState
          [(0, true, legatoDescriptor 0 0 60 100),
           (1, true, legatoDescriptor 1 0 62 100),
           (2, true, legatoDescriptor 2 0 64 100)]).1
        [(1, false, legatoDescriptor 1 0 62 100),
         (0, false, legatoDescriptor 0 0 60 100),
         (2, false, legatoDescriptor 2 0 64 100)]).2 =
      [(eventType_t.BUTTON,
        { componentIndex := 2, channel := 0, index := 64, value := 0,
          message := midiMessage_t.NOTE_OFF })] := by
  have h := c4_legato_sequence 60 62 64 0 100 (by decide) (by decide) (by decide)
    (by decide) (by decide) (by decide) (by decide)
  refine ⟨by decide, ?_, ?_⟩
  · rw [h.1]
    decide
  · have h2 := (h.2 (1, false, legatoDescriptor 1 0 62 100)
      (0, false, legatoDescriptor 0 0 60 100)
      (2, false, legatoDescriptor 2 0 64 100) (by decide)).2.2
    rw [h2]
    decide

/-! ## Register-chromatic helper lemmas -/

/-- `toInt16` is the identity on the `int16_t` range. -/
theorem toInt16_eq_self (x : Int) (h1 : -32768 ≤ x) (h2 : x < 32768) :
    toInt16 x = x := by
  unfold toInt16
  have h : (x + 32768) % 65536 = x + 32768 :=
    Int.emod_eq_of_lt (by omega) (by omega)
  omega

/-- With the documented transpose range (raw 0..48) the sax transpose is
just `raw - 24` semitones. -/
theorem saxTranspose_small (db : Database) (hT : db.saxTransposeRaw ≤ 48) :
    saxTranspose db = (db.saxTransposeRaw : Int) - 24 := by
  unfold saxTranspose
  rw [Nat.mod_eq_of_lt (by omega)]
  have hb : ((db.saxTransposeRaw : Int)) ≤ 48 := by exact_mod_cast hT
  have hb0 : (0 : Int) ≤ (db.saxTransposeRaw : Int) := by positivity
  rw [toInt16_eq_self ((db.saxTransposeRaw : Int)) (by omega) (by omega)]
  rw [toInt16_eq_self _ (by omega) (by omega)]

/-- The highest-pressed-key scan returns a pressed key above which no key
is pressed. -/
theorem saxActiveKeyAux_some (db : Database) (st : ButtonsState) :
    ∀ n k, saxActiveKeyAux db st n = some k →
      k < n ∧ saxPressed db st k = true ∧
      ∀ j, k < j → j < n → saxPressed db st j = false := by
  intro n
  induction n with
  | zero =>
    intro k h
    simp [saxActiveKeyAux] at h
  | succ m ih =>
    intro k h
    unfold saxActiveKeyAux at h
    by_cases hp : saxPressed db st m = true
    · rw [if_pos hp] at h
      cases h
      exact ⟨Nat.lt_succ_self m, hp, fun j hj1 hj2 => by omega⟩
    · rw [if_neg hp] at h
      obtain ⟨h1, h2, h3⟩ := ih k h
      refine ⟨by omega, h2, fun j hj1 hj2 => ?_⟩
      rcases Nat.lt_or_ge j m with hjm | hjm
      · exact h3 j hj1 hjm
      · have hjeq : j = m := by omega
        subst hjeq
        exact Bool.not_eq_true _ ▸ (Bool.eq_false_iff.mpr hp)

/-- With every fingering entry disabled the scan returns its initial
accumulator. -/
theorem saxScan_of_no_enabled (cfg : Config) (db : Database) (cur : Nat)
    (h : ∀ e, e < cfg.fingeringEntries → entryEnabled db e = false) :
    saxScan cfg db cur =
      { anyEnabled := false, hasMatch := false, bestScore := 0, bestNote := 0 } := by
  unfold saxScan
  have hgen : ∀ (l : List Nat) (acc : SaxScan),
      (∀ x ∈ l, entryEnabled db x = false) →
      l.foldl (saxScanStep cfg db cur) acc = acc := by
    intro l
    induction l with
    | nil => intro acc _; rfl
    | cons x t ih =>
      intro acc hx
      rw [List.foldl_cons]
      have hE := hx x (by simp)
      have hstep : saxScanStep cfg db cur acc x = acc := by
        simp [saxScanStep, hE]
      rw [hstep]
      exact ih _ (fun y hy => hx y (by simp [hy]))
  exact hgen _ _ (fun x hx => h x (List.mem_range.mp hx))

/-! ## Claim C7 -/

set_option maxRecDepth 4000

/-- C7: in legacy register-chromatic mode (no fingering entry enabled),
the active key is the highest-index pressed digital key; its index is
remapped by the per-key table (stored 0 means identity, else stored
minus one, out-of-range falls back to identity); the target note is
base + remapped key + transpose clamped to 0..127; a changed target
publishes Note Off for the old note then Note On for the new, an
unchanged target publishes nothing, and with a key pressed the engine
never publishes a lone Note Off.  Stated under the documented value
ranges (transpose raw 0..48, stored base and remap bytes, a digital
input count below 30000). -/
theorem c7_legacy_mode (cfg : Config) (db : Database) (st : ButtonsState) (k : Nat)
    (hNoEn : ∀ e, e < cfg.fingeringEntries → entryEnabled db e = false)
    (hT : db.saxTransposeRaw ≤ 48)
    (hD : cfg.digitalCount ≤ 30000)
    (hBase : db.saxBaseNote ≤ 255)
    (hMap : db.saxKeyMap k ≤ 255)
    (hActive : saxActiveKey cfg db st = some k) :
    (k < cfg.digitalCount ∧ saxPressed db st k = true ∧
      ∀ j, k < j → j < cfg.digitalCount → saxPressed db st j = false) ∧
    processSaxRegisterChromatic cfg db st =
      saxEmitNote st (saxChannel db)
        (clampNote ((db.saxBaseNote : Int) + (saxRemappedKey cfg db k : Int) +
          ((db.saxTransposeRaw : Int) - 24))) ∧
    (∀ t, t = clampNote ((db.saxBaseNote : Int) + (saxRemappedKey cfg db k : Int) +
        ((db.saxTransposeRaw : Int) - 24)) →
      (st.saxNoteOn = true → st.saxActiveNote = t →
        processSaxRegisterChromatic cfg db st = (st, [])) ∧
      (st.saxNoteOn = true → st.saxActiveNote ≠ t →
        processSaxRegisterChromatic cfg db st =
          ({ st with saxActiveNote := t, saxNoteOn := true },
           [saxNoteOffEvent (saxChannel db) st.saxActiveNote,
            saxNoteOnEvent (saxChannel db) t])) ∧
      (st.saxNoteOn = false →
        processSaxRegisterChromatic cfg db st =
          ({ st with saxActiveNote := t, saxNoteOn := true },
           [saxNoteOnEvent (saxChannel db) t]))) := by
  have hchar := saxActiveKeyAux_some db st cfg.digitalCount k hActive
  have hk : k < cfg.digitalCount := hchar.1
  have hscan := saxScan_of_no_enabled cfg db (saxCurrentMask cfg db st) hNoEn
  have hmk : (if cfg.digitalCount ≤
        (if db.saxKeyMap k % 256 = 0 then k % 65536 else db.saxKeyMap k % 256 - 1)
      then k % 65536
      else if db.saxKeyMap k % 256 = 0 then k % 65536 else db.saxKeyMap k % 256 - 1) =
      saxRemappedKey cfg db k := by
    rw [Nat.mod_eq_of_lt (by omega : db.saxKeyMap k < 256),
      Nat.mod_eq_of_lt (by omega : k < 65536)]
    unfold saxRemappedKey
    by_cases hm : db.saxKeyMap k = 0
    · simp [hm, Nat.not_le.mpr hk]
    · simp [hm]
  have hrm : saxRemappedKey cfg db k < cfg.digitalCount := by
    unfold saxRemappedKey
    split
    · exact hk
    · split
      · exact hk
      · omega
  have hmain : processSaxRegisterChromatic cfg db st =
      saxEmitNote st (saxChannel db)
        (clampNote ((db.saxBaseNote : Int) + (saxRemappedKey cfg db k : Int) +
          ((db.saxTransposeRaw : Int) - 24))) := by
    simp only [processSaxRegisterChromatic, hscan, hActive]
    rw [if_neg (by simp :
      ¬ ({ anyEnabled := false, hasMatch := false, bestScore := 0,
           bestNote := 0 } : SaxScan).anyEnabled = true)]
    rw [hmk]
    have hnote : clampNote (toInt16 (((db.saxBaseNote % 256 : Nat) : Int) +
        ((saxRemappedKey cfg db k : Nat) : Int) + saxTranspose db)) =
        clampNote ((db.saxBaseNote : Int) + (saxRemappedKey cfg db k : Int) +
          ((db.saxTransposeRaw : Int) - 24)) := by
      rw [Nat.mod_eq_of_lt (show db.saxBaseNote < 256 by omega),
        saxTranspose_small db hT]
      rw [toInt16_eq_self _ (by omega) (by omega)]
    rw [hnote]
  refine ⟨hchar, hmain, ?_⟩
  intro t ht
  subst ht
  refine ⟨?_, ?_, ?_⟩
  · intro hOn hEq
    rw [hmain]
    simp [saxEmitNote, hOn, hEq]
  · intro hOn hNe
    rw [hmain]
    simp [saxEmitNote, hOn, hNe]
  · intro hOff
    rw [hmain]
    simp [saxEmitNote, hOff]

/-- Witness for C7, matching the spec's example: five digital inputs,
base 60, neutral transpose, identity remap.  Keys {2, 4} pressed sound
note 64 (active key 4); after key 4 is released (keys {2}, note 64 still
sounding) the engine publishes Off(64) then On(62). -/
theorem c7_legacy_mode_witness :
    (saxActiveKey cfgSax dbSaxBase60 stKeys24 = some 4 ∧
     saxActiveKey cfgSax dbSaxBase60 stKey2Sounding = some 2 ∧
     (∀ e, e < cfgSax.fingeringEntries → entryEnabled dbSaxBase60 e = false)) ∧
    (processSaxRegisterChromatic cfgSax dbSaxBase60 stKeys24).2 =
      [(eventType_t.BUTTON,
        { componentIndex := 0, channel := 0, index := 64, value := 127,
          message := midiMessage_t.NOTE_ON })] ∧
    (processSaxRegisterChromatic cfgSax dbSaxBase60 stKey2Sounding).2 =
      [(eventType_t.BUTTON,
        { componentIndex := 0, channel := 0, index := 64, value := 0,
          message := midiMessage_t.NOTE_OFF }),
       (eventType_t.BUTTON,
        { componentIndex := 0, channel := 0, index := 62, value := 127,
          message := midiMessage_t.NOTE_ON })] := by
  have h4 := c7_legacy_mode cfgSax dbSaxBase60 stKeys24 4 (by decide) (by decide)
    (by decide) (by decide) (by decide) (by decide)
  have h2 := c7_legacy_mode cfgSax dbSaxBase60 stKey2Sounding 2 (by decide) (by decide)
    (by decide) (by decide) (by decide) (by decide)
  refine ⟨⟨by decide, by decide, by decide⟩, ?_, ?_⟩
  · have e4 := (h4.2.2 64 (by decide)).2.2 rfl
    rw [e4]
    decide
  · have e2 := (h2.2.2 62 (by decide)).2.1 rfl (by decide)
    rw [e2]
    decide

/-! ## Fingering-table scan lemmas (towards claim C3) -/

/-- The fold over the first `n` entries agrees with the reference
recursion: `anyEnabled` tracks whether any entry is enabled, and the
best-match fields record the winner computed by `saxSpecWinner`. -/
theorem saxScanRange_spec (cfg : Config) (db : Database) (cur : Nat) :
    ∀ n,
      ((List.range n).foldl (saxScanStep cfg db cur)
        { anyEnabled := false, hasMatch := false, bestScore := 0,
          bestNote := 0 }).anyEnabled = saxAnyEnabled db n ∧
      (saxSpecWinner cfg db cur n = none →
        ((List.range n).foldl (saxScanStep cfg db cur)
          { anyEnabled := false, hasMatch := false, bestScore := 0,
            bestNote := 0 }).hasMatch = false) ∧
      (∀ w, saxSpecWinner cfg db cur n = some w →
        ((List.range n).foldl (saxScanStep cfg db cur)
          { anyEnabled := false, hasMatch := false, bestScore := 0,
            bestNote := 0 }).hasMatch = true ∧
        ((List.range n).foldl (saxScanStep cfg db cur)
          { anyEnabled := false, hasMatch := false, bestScore := 0,
            bestNote := 0 }).bestScore = popcount32 (entryMask cfg db w) ∧
        ((List.range n).foldl (saxScanStep cfg db cur)
          { anyEnabled := false, hasMatch := false, bestScore := 0,
            bestNote := 0 }).bestNote = db.fingeringNote w % 65536) := by
  intro n
  induction n with
  | zero =>
    refine ⟨rfl, fun _ => rfl, fun w hw => ?_⟩
    simp [saxSpecWinner] at hw
  | succ m ih =>
    obtain ⟨ihA, ihN, ihS⟩ := ih
    rw [List.range_succ, List.foldl_append, List.foldl_cons, List.foldl_nil]
    have hAE : saxAnyEnabled db (m + 1) = (saxAnyEnabled db m || entryEnabled db m) := by
      simp [saxAnyEnabled, List.range_succ]
    by_cases hE : entryEnabled db m = true
    · by_cases hM : entryMask cfg db m &&& cur = entryMask cfg db m
      · -- enabled, mask subset of current
        cases hsw : saxSpecWinner cfg db cur m with
        | none =>
          have hHM := ihN hsw
          have hcond : ((List.range m).foldl (saxScanStep cfg db cur)
              { anyEnabled := false, hasMatch := false, bestScore := 0,
                bestNote := 0 }).hasMatch = false ∨
              popcount32 (entryMask cfg db m) >
                ((List.range m).foldl (saxScanStep cfg db cur)
                  { anyEnabled := false, hasMatch := false, bestScore := 0,
                    bestNote := 0 }).bestScore := Or.inl hHM
          by_cases hN : db.fingeringNote m % 65536 > 127
          · have hvm : validSaxMatch cfg db cur m = false := by
              simp [validSaxMatch, hN]
            have hswn : saxSpecWinner cfg db cur (m + 1) = none := by
              simp only [saxSpecWinner, hsw, hvm]
              simp
            refine ⟨?_, ?_, ?_⟩
            · simp [saxScanStep, hE, hM, if_pos hcond, hN, hAE, ihA]
            · intro _
              simp [saxScanStep, hE, hM, if_pos hcond, hN, hHM]
            · intro w hw
              rw [hswn] at hw
              cases hw
          · have hvm : validSaxMatch cfg db cur m = true := by
              simp [validSaxMatch, hE, hM]
              omega
            have hswm : saxSpecWinner cfg db cur (m + 1) = some m := by
              simp only [saxSpecWinner, hsw, hvm]
              simp
            refine ⟨?_, ?_, ?_⟩
            · simp [saxScanStep, hE, hM, if_pos hcond, hN, hAE, ihA]
            · intro hcontra
              rw [hswm] at hcontra
              cases hcontra
            · intro w hw
              rw [hswm] at hw
              cases hw
              refine ⟨?_, ?_, ?_⟩ <;>
                simp [saxScanStep, hE, hM, if_pos hcond, hN]
        | some w' =>
          obtain ⟨hHM, hBS, hBN⟩ := ihS w' hsw
          by_cases hGT : popcount32 (entryMask cfg db m) >
              popcount32 (entryMask cfg db w')
          · have hcond : ((List.range m).foldl (saxScanStep cfg db cur)
                { anyEnabled := false, hasMatch := false, bestScore := 0,
                  bestNote := 0 }).hasMatch = false ∨
                popcount32 (entryMask cfg db m) >
                  ((List.range m).foldl (saxScanStep cfg db cur)
                    { anyEnabled := false, hasMatch := false, bestScore := 0,
                      bestNote := 0 }).bestScore := by
              right
              rw [hBS]
              exact hGT
            by_cases hN : db.fingeringNote m % 65536 > 127
            · have hvm : validSaxMatch cfg db cur m = false := by
                simp [validSaxMatch, hN]
              have hsww : saxSpecWinner cfg db cur (m + 1) = some w' := by
                simp only [saxSpecWinner, hsw, hvm]
                simp
              refine ⟨?_, ?_, ?_⟩
              · simp [saxScanStep, hE, hM, if_pos hcond, hN, hAE, ihA]
              · intro hcontra
                rw [hsww] at hcontra
                cases hcontra
              · intro w hw
                rw [hsww] at hw
                cases hw
                refine ⟨?_, ?_, ?_⟩ <;>
                  simp [saxScanStep, hE, hM, if_pos hcond, hN, hHM, hBS, hBN]
            · have hvm : validSaxMatch cfg db cur m = true := by
                simp [validSaxMatch, hE, hM]
                omega
              have hswm : saxSpecWinner cfg db cur (m + 1) = some m := by
                simp only [saxSpecWinner, hsw, hvm]
                simp [hGT]
              refine ⟨?_, ?_, ?_⟩
              · simp [saxScanStep, hE, hM, if_pos hcond, hN, hAE, ihA]
              · intro hcontra
                rw [hswm] at hcontra
                cases hcontra
              · intro w hw
                rw [hswm] at hw
                cases hw
                refine ⟨?_, ?_, ?_⟩ <;>
                  simp [saxScanStep, hE, hM, if_pos hcond, hN]
          · have hcond : ¬ (((List.range m).foldl (saxScanStep cfg db cur)
                { anyEnabled := false, hasMatch := false, bestScore := 0,
                  bestNote := 0 }).hasMatch = false ∨
                popcount32 (entryMask cfg db m) >
                  ((List.range m).foldl (saxScanStep cfg db cur)
                    { anyEnabled := false, hasMatch := false, bestScore := 0,
                      bestNote := 0 }).bestScore) := by
              rw [hHM, hBS]
              simp [hGT]
            have hsww : saxSpecWinner cfg db cur (m + 1) = some w' := by
              simp only [saxSpecWinner, hsw]
              simp [hGT]
            refine ⟨?_, ?_, ?_⟩
            · simp [saxScanStep, hE, hM, if_neg hcond, hAE, ihA]
            · intro hcontra
              rw [hsww] at hcontra
              cases hcontra
            · intro w hw
              rw [hsww] at hw
              cases hw
              refine ⟨?_, ?_, ?_⟩ <;>
                simp [saxScanStep, hE, hM, hGT, hHM, hBS, hBN]
      · -- enabled, mask not a subset
        have hvm : validSaxMatch cfg db cur m = false := by
          simp [validSaxMatch]
          intro _ hc
          exact absurd hc hM
        have hsw : saxSpecWinner cfg db cur (m + 1) = saxSpecWinner cfg db cur m := by
          simp only [saxSpecWinner]
          cases saxSpecWinner cfg db cur m <;> simp [hvm]
        refine ⟨?_, ?_, ?_⟩
        · simp [saxScanStep, hE, hM, hAE, ihA]
        · intro h
          rw [hsw] at h
          have := ihN h
          simp [saxScanStep, hE, hM, this]
        · intro w hw
          rw [hsw] at hw
          obtain ⟨h1, h2, h3⟩ := ihS w hw
          refine ⟨?_, ?_, ?_⟩ <;> simp [saxScanStep, hE, hM, h1, h2, h3]
    · -- not enabled
      have hE' : entryEnabled db m = false := by simpa using hE
      have hvm : validSaxMatch cfg db cur m = false := by
        simp [validSaxMatch, hE']
      have hsw : saxSpecWinner cfg db cur (m + 1) = saxSpecWinner cfg db cur m := by
        simp only [saxSpecWinner]
        cases saxSpecWinner cfg db cur m <;> simp [hvm]
      refine ⟨?_, ?_, ?_⟩
      · simp [saxScanStep, hE', hAE, ihA]
      · intro h
        rw [hsw] at h
        have := ihN h
        simp [saxScanStep, hE', this]
      · intro w hw
        rw [hsw] at hw
        obtain ⟨h1, h2, h3⟩ := ihS w hw
        refine ⟨?_, ?_, ?_⟩ <;> simp [saxScanStep, hE', h1, h2, h3]

/-- The reference recursion returns `none` exactly when no entry below
`n` is a usable match. -/
theorem saxSpecWinner_none_iff (cfg : Config) (db : Database) (cur : Nat) :
    ∀ n, saxSpecWinner cfg db cur n = none ↔
      ∀ e, e < n → validSaxMatch cfg db cur e = false := by
  intro n
  induction n with
  | zero => simp [saxSpecWinner]
  | succ m ih =>
    constructor
    · intro h
      cases hsw : saxSpecWinner cfg db cur m with
      | none =>
        have hall := ih.mp hsw
        simp only [saxSpecWinner, hsw] at h
        by_cases hv : validSaxMatch cfg db cur m = true
        · rw [if_pos hv] at h
          cases h
        · intro e he
          rcases Nat.lt_succ_iff_lt_or_eq.mp he with h1 | h1
          · exact hall e h1
          · subst h1
            simpa using hv
      | some w =>
        simp only [saxSpecWinner, hsw] at h
        split at h <;> cases h
    · intro hall
      have hnone : saxSpecWinner cfg db cur m = none :=
        ih.mpr (fun e he => hall e (by omega))
      simp only [saxSpecWinner, hnone]
      simp [hall m (Nat.lt_succ_self m)]

/-- The reference recursion returns a usable match of maximal population
count, the earliest among equals. -/
theorem saxSpecWinner_some_props (cfg : Config) (db : Database) (cur : Nat) :
    ∀ n w, saxSpecWinner cfg db cur n = some w →
      w < n ∧ validSaxMatch cfg db cur w = true ∧
      (∀ e, e < n → validSaxMatch cfg db cur e = true →
        popcount32 (entryMask cfg db e) ≤ popcount32 (entryMask cfg db w)) ∧
      (∀ e, e < w → validSaxMatch cfg db cur e = true →
        popcount32 (entryMask cfg db e) < popcount32 (entryMask cfg db w)) := by
  intro n
  induction n with
  | zero =>
    intro w h
    simp [saxSpecWinner] at h
  | succ m ih =>
    intro w h
    cases hsw : saxSpecWinner cfg db cur m with
    | none =>
      have hall := (saxSpecWinner_none_iff cfg db cur m).mp hsw
      simp only [saxSpecWinner, hsw] at h
      by_cases hv : validSaxMatch cfg db cur m = true
      · rw [if_pos hv] at h
        cases h
        refine ⟨Nat.lt_succ_self m, hv, ?_, ?_⟩
        · intro e he hve
          rcases Nat.lt_succ_iff_lt_or_eq.mp he with h1 | h1
          · rw [hall e h1] at hve
            cases hve
          · subst h1
            exact le_refl _
        · intro e he hve
          rw [hall e (by omega)] at hve
          cases hve
      · rw [if_neg hv] at h
        cases h
    | some w2 =>
      obtain ⟨hw1, hw2, hw3, hw4⟩ := ih w2 hsw
      simp only [saxSpecWinner, hsw] at h
      by_cases hc : validSaxMatch cfg db cur m = true ∧
          popcount32 (entryMask cfg db m) > popcount32 (entryMask cfg db w2)
      · rw [if_pos hc] at h
        cases h
        refine ⟨Nat.lt_succ_self m, hc.1, ?_, ?_⟩
        · intro e he hve
          rcases Nat.lt_succ_iff_lt_or_eq.mp he with h1 | h1
          · exact le_trans (hw3 e h1 hve) (le_of_lt hc.2)
          · subst h1
            exact le_refl _
        · intro e he hve
          exact lt_of_le_of_lt (hw3 e (by omega) hve) hc.2
      · rw [if_neg hc] at h
        cases h
        refine ⟨by omega, hw2, ?_, hw4⟩
        intro e he hve
        rcases Nat.lt_succ_iff_lt_or_eq.mp he with h1 | h1
        · exact hw3 e h1 hve
        · subst h1
          by_contra hgt
          exact hc ⟨hve, by omega⟩

/-- A first-maximal usable match is the winner the reference recursion
computes. -/
theorem saxSpecWinner_of_firstMax (cfg : Config) (db : Database) (cur w : Nat)
    (h : saxFirstMax cfg db cur w) :
    saxSpecWinner cfg db cur cfg.fingeringEntries = some w := by
  obtain ⟨hwn, hwv, hmax, hfirst⟩ := h
  cases hsw : saxSpecWinner cfg db cur cfg.fingeringEntries with
  | none =>
    have hall := (saxSpecWinner_none_iff cfg db cur cfg.fingeringEntries).mp hsw
    rw [hall w hwn] at hwv
    cases hwv
  | some w2 =>
    obtain ⟨h1, h2, h3, h4⟩ :=
      saxSpecWinner_some_props cfg db cur cfg.fingeringEntries w2 hsw
    have hle1 : popcount32 (entryMask cfg db w2) ≤ popcount32 (entryMask cfg db w) :=
      hmax w2 h1 h2
    have hle2 : popcount32 (entryMask cfg db w) ≤ popcount32 (entryMask cfg db w2) :=
      h3 w hwn hwv
    rcases Nat.lt_trichotomy w w2 with hlt | heqw | hgt
    · have := h4 w hlt hwv
      omega
    · rw [heqw]
    · have := hfirst w2 hgt h2
      omega

/-! ## Claim C3 -/

/-- Counterexample to C3 as stated: fingering entry 0 is enabled, its
mask (key 0) is a subset of the current non-empty mask and it is the only
matching entry (so it has the strictly highest population count), yet it
does not supply the target note: its stored note is 128, the scan skips
it, and the engine takes the no-match path, turning the sounding note 5
off without publishing any Note On. -/
theorem c3_counterexample :
    entryEnabled dbNote128 0 = true ∧
    entryMask cfgSax dbNote128 0 &&& saxCurrentMask cfgSax dbNote128 stKey0Sounding =
      entryMask cfgSax dbNote128 0 ∧
    saxCurrentMask cfgSax dbNote128 stKey0Sounding ≠ 0 ∧
    (processSaxRegisterChromatic cfgSax dbNote128 stKey0Sounding).2 =
      [(eventType_t.BUTTON,
        { componentIndex := 0, channel := 0, index := 5, value := 0,
          message := midiMessage_t.NOTE_OFF })] ∧
    (∀ ev ∈ (processSaxRegisterChromatic cfgSax dbNote128 stKey0Sounding).2,
      ev.2.message ≠ midiMessage_t.NOTE_ON) ∧
    (processSaxRegisterChromatic cfgSax dbNote128 stKey0Sounding).1.saxNoteOn = false := by
  decide

/-- C3 (amended): in table mode (some entry enabled), among enabled
entries whose mask is a subset of the current mask and whose stored note
is in MIDI range (at most 127): the entry with the strictly highest mask
population count supplies the target note, equal counts keeping the
earlier-scanned entry; entries with an out-of-range stored note are
skipped.  If no such entry matches, or the current mask is empty, the
sounding note (if any) receives a Note Off and nothing else is
published. -/
theorem c3_fingering_table (cfg : Config) (db : Database) (st : ButtonsState)
    (hAny : ∃ e, e < cfg.fingeringEntries ∧ entryEnabled db e = true) :
    (((∀ e, e < cfg.fingeringEntries →
        validSaxMatch cfg db (saxCurrentMask cfg db st) e = false) ∨
      saxCurrentMask cfg db st = 0) →
      (st.saxNoteOn = true →
        processSaxRegisterChromatic cfg db st =
          ({ st with saxNoteOn := false },
           [saxNoteOffEvent (saxChannel db) st.saxActiveNote])) ∧
      (st.saxNoteOn = false →
        processSaxRegisterChromatic cfg db st = (st, []))) ∧
    (∀ w, saxFirstMax cfg db (saxCurrentMask cfg db st) w →
      saxCurrentMask cfg db st ≠ 0 →
      processSaxRegisterChromatic cfg db st =
        saxEmitNote st (saxChannel db)
          (saxTargetNote db (db.fingeringNote w % 65536))) := by
  obtain ⟨hA, hN, hS⟩ :=
    saxScanRange_spec cfg db (saxCurrentMask cfg db st) cfg.fingeringEntries
  have hAE : (saxScan cfg db (saxCurrentMask cfg db st)).anyEnabled = true := by
    unfold saxScan
    rw [hA]
    obtain ⟨e, he, hee⟩ := hAny
    simp only [saxAnyEnabled, List.any_eq_true]
    exact ⟨e, List.mem_range.mpr he, hee⟩
  constructor
  · intro hcase
    have hOff : (saxScan cfg db (saxCurrentMask cfg db st)).hasMatch = false ∨
        saxCurrentMask cfg db st = 0 := by
      rcases hcase with hnov | hzero
      · left
        have hnone : saxSpecWinner cfg db (saxCurrentMask cfg db st)
            cfg.fingeringEntries = none :=
          (saxSpecWinner_none_iff cfg db (saxCurrentMask cfg db st)
            cfg.fingeringEntries).mpr hnov
        unfold saxScan
        exact hN hnone
      · right
        exact hzero
    have hmain : processSaxRegisterChromatic cfg db st =
        saxTurnOff st (saxChannel db) := by
      simp only [processSaxRegisterChromatic]
      rw [if_pos hAE, if_pos hOff]
    constructor
    · intro hOn
      rw [hmain]
      simp [saxTurnOff, hOn]
    · intro hOffb
      rw [hmain]
      simp [saxTurnOff, hOffb]
  · intro w hfm hmask
    have hsw := saxSpecWinner_of_firstMax cfg db (saxCurrentMask cfg db st) w hfm
    have hprops := hS w hsw
    have hH : (saxScan cfg db (saxCurrentMask cfg db st)).hasMatch = true := by
      unfold saxScan
      exact hprops.1
    have hBN : (saxScan cfg db (saxCurrentMask cfg db st)).bestNote =
        db.fingeringNote w % 65536 := by
      unfold saxScan
      exact hprops.2.2
    have hnocond : ¬ ((saxScan cfg db (saxCurrentMask cfg db st)).hasMatch = false ∨
        saxCurrentMask cfg db st = 0) := by
      rw [hH]
      simp [hmask]
    have hmain : processSaxRegisterChromatic cfg db st =
        saxEmitNote st (saxChannel db)
          (saxTargetNote db (saxScan cfg db (saxCurrentMask cfg db st)).bestNote) := by
      simp only [processSaxRegisterChromatic]
      rw [if_pos hAE, if_neg hnocond]
    rw [hmain, hBN]

/-- Witness for C3 (amended), matching the spec's priority example shape:
entry 0 requires keys {0, 1} (note 70), entry 1 requires keys {0, 1, 2}
(note 80); with keys {0, 1, 2} pressed both match and entry 1 wins on the
higher population count, so note 80 is turned on. -/
theorem c3_fingering_table_witness :
    (∃ e, e < cfgSax.fingeringEntries ∧ entryEnabled dbTwoEntries e = true) ∧
    saxFirstMax cfgSax dbTwoEntries (saxCurrentMask cfgSax dbTwoEntries stKeys012) 1 ∧
    (processSaxRegisterChromatic cfgSax dbTwoEntries stKeys012).2 =
      [(eventType_t.BUTTON,
        { componentIndex := 0, channel := 0, index := 80, value := 127,
          message := midiMessage_t.NOTE_ON })] := by
  have hfm : saxFirstMax cfgSax dbTwoEntries
      (saxCurrentMask cfgSax dbTwoEntries stKeys012) 1 := by
    refine ⟨by decide, by decide, ?_, ?_⟩
    · decide
    · decide
  have h := (c3_fingering_table cfgSax dbTwoEntries stKeys012
    ⟨0, by decide, by decide⟩).2 1 hfm (by decide)
  refine ⟨⟨0, by decide, by decide⟩, hfm, ?_⟩
  rw [h]
  decide

end OpenDeck
